import Mathlib

/-!
Verification development for the `metric` language implementation
(tokenizer → parser → type checker → evaluator pipeline).

Each component is embedded shallowly from its Python source file:

* `tokenizer.py`  → `Metric.tokenize` and helpers,
* `parser.py`     → `Metric.parse` and helpers,
* `type_checker.py` → `Metric.typeCheck` and helpers,
* `evaluator.py`  → `Metric.execute` and helpers.

Recursions that are not structural in the Python source (the scanner loop,
the recursive-descent parser, the visitor recursion of the type checker and
the tree-walking evaluator, which can diverge through `while` loops and
function calls) are made total with an explicit fuel parameter; fuel
exhaustion is a dedicated failure value distinct from every error the
Python code can raise.  Python dictionaries are modelled as association
lists (lookup returns the binding of the key; insertion replaces it), and
Python `float` payloads are modelled as exact rationals; the shared mutable
cost cell of the evaluator is modelled as a reference (a natural number)
into an explicit store.
-/

namespace Metric

instance {ε α : Type} [DecidableEq ε] [DecidableEq α] : DecidableEq (Except ε α) := fun x y =>
  match x, y with
  | .ok a, .ok b =>
      if h : a = b then .isTrue (by rw [h]) else .isFalse (fun hh => by cases hh; exact h rfl)
  | .error a, .error b =>
      if h : a = b then .isTrue (by rw [h]) else .isFalse (fun hh => by cases hh; exact h rfl)
  | .ok _, .error _ => .isFalse (fun hh => by cases hh)
  | .error _, .ok _ => .isFalse (fun hh => by cases hh)

/-! ## Association-list model of Python dictionaries -/

/-- Lookup in a Python-dict model (association list, at most one entry
per key is maintained by `dictInsert`). -/
def dictGet {α : Type} : List (String × α) → String → Option α
  | [], _ => none
  | (k, v) :: rest, key => if k = key then some v else dictGet rest key

/-- `d[key] = value` on the Python-dict model: replace an existing binding,
otherwise append a fresh one. -/
def dictInsert {α : Type} : List (String × α) → String → α → List (String × α)
  | [], key, value => [(key, value)]
  | (k, v) :: rest, key, value =>
      if k = key then (k, value) :: rest else (k, v) :: dictInsert rest key value

/-- `key in d` on the Python-dict model. -/
def dictMem {α : Type} (d : List (String × α)) (key : String) : Bool :=
  (dictGet d key).isSome

/-! ## AST (`metric_ast.py`) -/

/-- `Type` in `metric_ast.py` (scalar types). -/
inductive BaseTy where
  | integer
  | boolean
  | float
  deriving DecidableEq, Repr

/-- The `Type | ListType` union used for annotations: a scalar type or
`ListType(element_type)` whose element type is scalar. -/
inductive Ty where
  | base (b : BaseTy)
  | listOf (b : BaseTy)
  deriving DecidableEq, Repr

/-- `BinaryOperator` enum. -/
inductive BinOp where
  | addition | subtraction | multiplication | division | modulus
  | lessThan | greaterThan | lessThanOrEqual | greaterThanOrEqual
  | equalEqual | notEqual
  | andOp | orOp
  deriving DecidableEq, Repr

/-- `UnaryOperator` enum (only NOT). -/
inductive UnaryOp where
  | notOp
  deriving DecidableEq, Repr

mutual
/-- `Expression` variants of `metric_ast.py`. -/
inductive Expr where
  | integerLiteral (value : Int)
  | floatLiteral (value : ℚ)
  | booleanLiteral (value : Bool)
  | variable (name : String)
  | unary (operator : UnaryOp) (operand : Expr)
  | binary (left : Expr) (operator : BinOp) (right : Expr)
  | call (name : String) (arguments : ExprList)
  | listLiteral (elements : ExprList)
  | listAccess (listExpr : Expr) (index : Expr)
  | repeatCall (value : Expr) (count : Expr)
  | lenCall (listExpr : Expr)
  deriving DecidableEq, Repr

/-- Lists of expressions (argument lists, list-literal elements). -/
inductive ExprList where
  | nil
  | cons (head : Expr) (tail : ExprList)
  deriving DecidableEq, Repr
end

/-- `Parameter(name, type_annotation)`. -/
structure Parameter where
  name : String
  typeAnnot : Ty
  deriving DecidableEq, Repr

mutual
/-- `Statement` variants of `metric_ast.py`. -/
inductive Stmt where
  | letS (name : String) (typeAnnot : Ty) (expression : Expr)
  | printS (expression : Expr)
  | ifS (condition : Expr) (body : StmtList)
  | whileS (condition : Expr) (body : StmtList)
  | setS (name : String) (expression : Expr)
  | listAssignment (listName : String) (index : Expr) (value : Expr)
  | comment
  | functionDeclaration (name : String) (parameters : List Parameter)
      (returnType : Ty) (body : StmtList)
  | returnS (expression : Expr)
  deriving DecidableEq, Repr

/-- Lists of statements (program, block bodies, function bodies). -/
inductive StmtList where
  | nil
  | cons (head : Stmt) (tail : StmtList)
  deriving DecidableEq, Repr
end

/-- Number of statements in a `StmtList`. -/
def StmtList.length : StmtList → Nat
  | .nil => 0
  | .cons _ t => 1 + t.length

def StmtList.append : StmtList → StmtList → StmtList
  | .nil, l => l
  | .cons h t, l => .cons h (t.append l)

/-- Does a top-level statement of the list satisfy the predicate? -/
def StmtList.any (l : StmtList) (p : Stmt → Bool) : Bool :=
  match l with
  | .nil => false
  | .cons h t => p h || t.any p

/-! ## Tokenizer (`tokenizer.py`) -/

/-- The `Token` enum: zero-payload keyword/punctuation tokens. -/
inductive Token where
  | letKw | printKw | trueKw | falseKw
  | plus | minus | multiply | divide | modulus
  | leftParenthesis | rightParenthesis | equals
  | lessThan | greaterThan | lessThanOrEqual | greaterThanOrEqual
  | equalEqual | notEqual
  | statementSeparator
  | ifKw | whileKw | setKw
  | indent | dedent
  | integerType | booleanType | floatType
  | comment
  | defKw | returnsKw | returnKw
  | comma | listKw | ofKw
  | leftBracket | rightBracket
  | repeatKw | lenKw | andKw | orKw | notKw
  deriving DecidableEq, Repr

/-- `TokenType = Token | IntegerToken | FloatToken | IdentifierToken`. -/
inductive TokenType where
  | tok (t : Token)
  | integerToken (value : Int)
  | floatToken (value : ℚ)
  | identifierToken (name : String)
  deriving DecidableEq, Repr

/-- `TokenizerError(message, line, column)`. -/
structure TokenizerError where
  message : String
  line : Nat
  column : Nat
  deriving DecidableEq, Repr

/-- Failures of the embedded tokenizer: a raised `TokenizerError`, a failed
internal `assert` (the dedentation landing check), or fuel exhaustion of the
embedding (never reached: the scanner is run with fuel exceeding the line
length and consumes at least one character per step). -/
inductive TokFail where
  | tokenizerError (e : TokenizerError)
  | assertionError
  | fuelExhausted
  deriving DecidableEq, Repr

/-- Python whitespace as recognised by `str.strip()` / `str.isspace()`. -/
def isPySpace (c : Char) : Bool :=
  c = ' ' || c = '\t' || c = '\n' || c = '\r' || c = '\x0b' || c = '\x0c'

/-- `line.strip()` is empty: every character is whitespace. -/
def lineIsBlank (l : List Char) : Bool := l.all isPySpace

/-- Leading-space count of `_extract_indentation_info`
(`len(line) - len(line.lstrip(" "))`). -/
def leadingSpaces (l : List Char) : Nat := (l.takeWhile (· = ' ')).length

/-- `line.strip()`: strip whitespace from both ends. -/
def pyStrip (l : List Char) : List Char :=
  ((l.dropWhile isPySpace).reverse.dropWhile isPySpace).reverse

/-- `s.rstrip()`: strip trailing whitespace. -/
def pyRstrip (l : List Char) : List Char :=
  (l.reverse.dropWhile isPySpace).reverse

/-- `input_str.split('\n')` on the character list. -/
def splitLinesChar : List Char → List (List Char)
  | [] => [[]]
  | c :: cs =>
      if c = '\n' then [] :: splitLinesChar cs
      else
        match splitLinesChar cs with
        | h :: t => (c :: h) :: t
        | [] => [[c]]

/-- `_validate_indentation_increment(spaces, line_num)`. -/
def validateIndentationIncrement (spaces : Nat) (lineNum : Nat) :
    Except TokFail Nat :=
  if spaces > 0 && spaces % 4 != 0 then
    .error (.tokenizerError
      ⟨"Invalid indentation: expected multiples of 4 spaces", lineNum, 1⟩)
  else
    .ok (spaces / 4)

/-- The pop loop of `_handle_dedentation` (`while len(indent_stack) > 1 and
indent_stack[-1] > target_depth`); the stack is modelled with its top as the
head of the list. -/
def popDedents : List Nat → Nat → List TokenType × List Nat
  | top :: next :: rest, target =>
      if top > target then
        let (ts, st) := popDedents (next :: rest) target
        (.tok .dedent :: ts, st)
      else ([], top :: next :: rest)
  | stack, _ => ([], stack)

/-- `_handle_dedentation(target_depth, indent_stack)`; the trailing `assert`
is modelled as `assertionError`. -/
def handleDedentation (target : Nat) (stack : List Nat) :
    Except TokFail (List TokenType × List Nat) :=
  let (ts, st) := popDedents stack target
  match st with
  | top :: _ => if top = target then .ok (ts, st) else .error .assertionError
  | [] => .error .assertionError

/-- `_handle_indentation_change(indent_depth, indent_stack, line_num)`. -/
def handleIndentationChange (depth : Nat) (stack : List Nat) (lineNum : Nat) :
    Except TokFail (List TokenType × List Nat) :=
  match stack with
  | [] => .error .assertionError
  | current :: _ =>
      if depth = current then .ok ([], stack)
      else if depth = current + 1 then .ok ([.tok .indent], depth :: stack)
      else if depth > current + 1 then
        .error (.tokenizerError
          ⟨"Invalid indentation: expected " ++ toString ((current + 1) * 4) ++ " spaces",
           lineNum, 1⟩)
      else handleDedentation depth stack

/-- Numeric value of a digit run. -/
def digitsToNat (ds : List Char) : Nat :=
  ds.foldl (fun acc c => acc * 10 + (c.toNat - '0'.toNat)) 0

/-- `int(number_str)` for an optionally negated digit run. -/
def intOfParts (neg : Bool) (ds : List Char) : Int :=
  if neg then -(digitsToNat ds : Int) else (digitsToNat ds : Int)

/-- `float(number_str)` modelled as the exact rational of the decimal text. -/
def ratOfParts (neg : Bool) (ds fs : List Char) : ℚ :=
  let v : ℚ := (digitsToNat ds : ℚ) + (digitsToNat fs : ℚ) / ((10 : ℚ) ^ fs.length)
  if neg then -v else v

/-- `_parse_number(line_content, start, line_num)`, rephrased on the suffix of
the line starting at the current scanner position `pos` (0-based); returns the
token, the unconsumed suffix and the new position. -/
def parsePyNumber (ln : Nat) (cs : List Char) (pos : Nat) :
    Except TokFail (TokenType × List Char × Nat) :=
  let (neg, cs₁, p₁) :=
    match cs with
    | '-' :: rest => (true, rest, pos + 1)
    | _ => (false, cs, pos)
  let intDigits := cs₁.takeWhile Char.isDigit
  let cs₂ := cs₁.dropWhile Char.isDigit
  let p₂ := p₁ + intDigits.length
  match cs₂ with
  | '.' :: cs₃ =>
      let fracDigits := cs₃.takeWhile Char.isDigit
      if fracDigits.isEmpty then
        .error (.tokenizerError
          ⟨"Invalid float: missing digits after decimal point", ln, p₂ + 2⟩)
      else
        .ok (.floatToken (ratOfParts neg intDigits fracDigits),
             cs₃.dropWhile Char.isDigit, p₂ + 1 + fracDigits.length)
  | _ => .ok (.integerToken (intOfParts neg intDigits), cs₂, p₂)

/-- `_get_keyword_token(identifier)`. -/
def getKeywordToken (identifier : String) : TokenType :=
  if identifier = "let" then .tok .letKw
  else if identifier = "print" then .tok .printKw
  else if identifier = "true" then .tok .trueKw
  else if identifier = "false" then .tok .falseKw
  else if identifier = "if" then .tok .ifKw
  else if identifier = "while" then .tok .whileKw
  else if identifier = "set" then .tok .setKw
  else if identifier = "integer" then .tok .integerType
  else if identifier = "boolean" then .tok .booleanType
  else if identifier = "float" then .tok .floatType
  else if identifier = "def" then .tok .defKw
  else if identifier = "returns" then .tok .returnsKw
  else if identifier = "return" then .tok .returnKw
  else if identifier = "list" then .tok .listKw
  else if identifier = "of" then .tok .ofKw
  else if identifier = "repeat" then .tok .repeatKw
  else if identifier = "len" then .tok .lenKw
  else if identifier = "and" then .tok .andKw
  else if identifier = "or" then .tok .orKw
  else if identifier = "not" then .tok .notKw
  else .identifierToken identifier

/-- `_is_negative_number_start` at the head of the suffix: a `'-'`
immediately followed by a digit. -/
def isNegativeNumberStart : List Char → Bool
  | '-' :: d :: _ => d.isDigit
  | _ => false

/-- One step of the per-character scanner of
`_tokenize_line_without_comments`, dispatching on the current character
exactly as the Python `match` does; `recur` is the continuation scanning
the unconsumed suffix. -/
def tokenizeCharsStep (recur : List Char → Nat → Except TokFail (List TokenType))
    (ln : Nat) (c : Char) (rest : List Char) (pos : Nat) :
    Except TokFail (List TokenType) :=
  if c = ' ' then recur rest (pos + 1)
  else if c = '=' && rest.head? = some '=' then
    (recur rest.tail (pos + 2)).map (.tok .equalEqual :: ·)
  else if c = '!' && rest.head? = some '=' then
    (recur rest.tail (pos + 2)).map (.tok .notEqual :: ·)
  else if c = '<' && rest.head? = some '=' then
    (recur rest.tail (pos + 2)).map (.tok .lessThanOrEqual :: ·)
  else if c = '>' && rest.head? = some '=' then
    (recur rest.tail (pos + 2)).map (.tok .greaterThanOrEqual :: ·)
  else if isNegativeNumberStart (c :: rest) then
    match parsePyNumber ln (c :: rest) pos with
    | .error e => .error e
    | .ok (t, cs', pos') => (recur cs' pos').map (t :: ·)
  else if c = '+' then (recur rest (pos + 1)).map (.tok .plus :: ·)
  else if c = '-' then (recur rest (pos + 1)).map (.tok .minus :: ·)
  else if c = '*' then (recur rest (pos + 1)).map (.tok .multiply :: ·)
  else if c = '/' then (recur rest (pos + 1)).map (.tok .divide :: ·)
  else if c = '%' then (recur rest (pos + 1)).map (.tok .modulus :: ·)
  else if c = '(' then (recur rest (pos + 1)).map (.tok .leftParenthesis :: ·)
  else if c = ')' then (recur rest (pos + 1)).map (.tok .rightParenthesis :: ·)
  else if c = '=' then (recur rest (pos + 1)).map (.tok .equals :: ·)
  else if c = '<' then (recur rest (pos + 1)).map (.tok .lessThan :: ·)
  else if c = '>' then (recur rest (pos + 1)).map (.tok .greaterThan :: ·)
  else if c = ',' then (recur rest (pos + 1)).map (.tok .comma :: ·)
  else if c = '[' then (recur rest (pos + 1)).map (.tok .leftBracket :: ·)
  else if c = ']' then (recur rest (pos + 1)).map (.tok .rightBracket :: ·)
  else if c.isDigit then
    match parsePyNumber ln (c :: rest) pos with
    | .error e => .error e
    | .ok (t, cs', pos') => (recur cs' pos').map (t :: ·)
  else if c.isAlpha then
    let letters := (c :: rest).takeWhile Char.isAlpha
    let cs' := (c :: rest).dropWhile Char.isAlpha
    (recur cs' (pos + letters.length)).map
      (getKeywordToken (String.mk letters) :: ·)
  else if c = '\t' then
    .error (.tokenizerError ⟨"Unexpected character: '\\t'", ln, pos + 1⟩)
  else
    .error (.tokenizerError
      ⟨"Unexpected character: '" ++ String.mk [c] ++ "'", ln, pos + 1⟩)

/-- The per-character scanner loop of `_tokenize_line_without_comments`,
with fuel (each step consumes at least one character, so fuel exceeding the
suffix length never runs out). `pos` is the 0-based index used for the
1-based column numbers of errors. -/
def tokenizeChars : Nat → Nat → List Char → Nat → Except TokFail (List TokenType)
  | _, _, [], _ => .ok []
  | 0, _, _ :: _, _ => .error .fuelExhausted
  | f + 1, ln, c :: rest, pos => tokenizeCharsStep (tokenizeChars f ln) ln c rest pos

/-- `_tokenize_line_without_comments(line_content, line_num)`. -/
def tokenizeLineWithoutComments (content : List Char) (ln : Nat) :
    Except TokFail (List TokenType) :=
  tokenizeChars (content.length + 1) ln content 0

/-- `_tokenize_line(line_content, line_num)`: split off a `#` comment,
tokenize the code part, and append a single COMMENT token. -/
def tokenizeLine (content : List Char) (ln : Nat) :
    Except TokFail (List TokenType) :=
  let before := content.takeWhile (· ≠ '#')
  if before.length = content.length then
    -- no '#' in the line
    tokenizeLineWithoutComments content ln
  else
    let codePart := pyRstrip before
    if codePart.isEmpty then .ok [.tok .comment]
    else (tokenizeLineWithoutComments codePart ln).map (· ++ [.tok .comment])

/-- `_finalize_all_indentation(indent_stack)`. -/
def finalizeAllIndentation (stack : List Nat) : List TokenType :=
  List.replicate (stack.length - 1) (.tok .dedent)

/-- The per-line loop of `tokenize`: skip blank lines, validate indentation,
emit INDENT/DEDENT tokens, tokenize the line content, and append a
STATEMENT_SEPARATOR when a later non-blank line exists
(`_has_more_content_after`). Returns the tokens and the final indent stack. -/
def tokLines : List (List Char) → Nat → List Nat →
    Except TokFail (List TokenType × List Nat)
  | [], _, stack => .ok ([], stack)
  | l :: rest, lineNum, stack =>
    if lineIsBlank l then tokLines rest (lineNum + 1) stack
    else
      match validateIndentationIncrement (leadingSpaces l) lineNum with
      | .error e => .error e
      | .ok depth =>
        match handleIndentationChange depth stack lineNum with
        | .error e => .error e
        | .ok (indentToks, stack') =>
          match tokenizeLine (pyStrip l) lineNum with
          | .error e => .error e
          | .ok lineToks =>
            let sep : List TokenType :=
              if rest.any (fun l2 => !(lineIsBlank l2)) then
                [.tok .statementSeparator]
              else []
            match tokLines rest (lineNum + 1) stack' with
            | .error e => .error e
            | .ok (moreToks, finalStack) =>
                .ok (indentToks ++ lineToks ++ sep ++ moreToks, finalStack)

/-- `tokenize(input_str)`. -/
def tokenize (s : String) : Except TokFail (List TokenType) :=
  if s.data.all isPySpace then .ok []
  else
    match tokLines (splitLinesChar s.data) 1 [0] with
    | .error e => .error e
    | .ok (toks, finalStack) => .ok (toks ++ finalizeAllIndentation finalStack)

/-- State evolution of the line loop of `tokenize`, without collecting
tokens: processing a prefix of the lines yields the line number and indent
stack with which the remaining lines are processed. -/
def procLines : List (List Char) → Nat → List Nat → Except TokFail (Nat × List Nat)
  | [], lineNum, stack => .ok (lineNum, stack)
  | l :: rest, lineNum, stack =>
    if lineIsBlank l then procLines rest (lineNum + 1) stack
    else
      match validateIndentationIncrement (leadingSpaces l) lineNum with
      | .error e => .error e
      | .ok depth =>
        match handleIndentationChange depth stack lineNum with
        | .error e => .error e
        | .ok (_, stack') =>
          match tokenizeLine (pyStrip l) lineNum with
          | .error e => .error e
          | .ok _ => procLines rest (lineNum + 1) stack'

/-! ### Tokenizer lemmas -/

/-- Every character of a line produced by `splitLinesChar` occurs in the
original character list. -/
lemma splitLinesChar_mem_mem (d : List Char) :
    ∀ line ∈ splitLinesChar d, ∀ c ∈ line, c ∈ d := by
  induction d with
  | nil =>
      intro line hline c hc
      simp only [splitLinesChar, List.mem_singleton] at hline
      subst hline
      simp at hc
  | cons x xs ih =>
      intro line hline c hc
      simp only [splitLinesChar] at hline
      by_cases hx : x = '\n'
      · rw [if_pos hx] at hline
        rcases List.mem_cons.mp hline with h | h
        · subst h; simp at hc
        · exact List.mem_cons_of_mem _ (ih line h c hc)
      · rw [if_neg hx] at hline
        rcases hsplit : splitLinesChar xs with _ | ⟨h0, t0⟩
        · rw [hsplit] at hline
          simp only [List.mem_singleton] at hline
          subst hline
          simp only [List.mem_singleton] at hc
          subst hc
          exact List.mem_cons_self _ _
        · rw [hsplit] at hline
          simp only [List.mem_cons] at hline
          rcases hline with h | h
          · subst h
            rcases List.mem_cons.mp hc with h | h
            · subst h; exact List.mem_cons_self _ _
            · refine List.mem_cons_of_mem _ (ih h0 ?_ c h)
              rw [hsplit]; exact List.mem_cons_self _ _
          · exact List.mem_cons_of_mem _ (ih line (by rw [hsplit]; exact List.mem_cons_of_mem _ h) c hc)

/-- A non-blank line among the split lines means the whole input is not
all-whitespace. -/
lemma not_all_space_of_nonblank_line (d : List Char) (line : List Char)
    (hline : line ∈ splitLinesChar d) (hblank : lineIsBlank line = false) :
    d.all isPySpace = false := by
  unfold lineIsBlank at hblank
  rcases List.all_eq_false.mp hblank with ⟨c, hc, hcs⟩
  exact List.all_eq_false.mpr ⟨c, splitLinesChar_mem_mem d line hline c hc, hcs⟩

/-- When the line loop reaches a non-blank line whose leading-space count is
positive and not a multiple of 4, it raises the invalid-indentation error at
that line's number. -/
lemma tokLines_indent_error (l : List Char) (rest : List (List Char))
    (n : Nat) (stack : List Nat)
    (hblank : lineIsBlank l = false)
    (hpos : 0 < leadingSpaces l)
    (hmod : leadingSpaces l % 4 ≠ 0) :
    tokLines (l :: rest) n stack =
      .error (.tokenizerError
        ⟨"Invalid indentation: expected multiples of 4 spaces", n, 1⟩) := by
  unfold tokLines
  rw [hblank]
  simp only [Bool.false_eq_true, if_false]
  unfold validateIndentationIncrement
  have : (leadingSpaces l > 0 && leadingSpaces l % 4 != 0) = true := by
    simp [hpos, hmod]
  rw [this]
  rfl

/-- Processing a prefix of lines advances the line number by the number of
lines in the prefix. -/
lemma procLines_lineNum (pre : List (List Char)) :
    ∀ n stack n' stack', procLines pre n stack = .ok (n', stack') →
      n' = n + pre.length := by
  induction pre with
  | nil =>
      intro n stack n' stack' h
      simp only [procLines] at h
      cases h
      simp
  | cons l pre' ih =>
      intro n stack n' stack' h
      simp only [procLines] at h
      by_cases hb : lineIsBlank l
      · rw [if_pos hb] at h
        have := ih (n + 1) stack n' stack' h
        simp [this]; omega
      · rw [if_neg hb] at h
        rcases hv : validateIndentationIncrement (leadingSpaces l) n with e | depth
        · rw [hv] at h; cases h
        · rw [hv] at h
          simp only at h
          rcases hi : handleIndentationChange depth stack n with e | ⟨its, stack₁⟩
          · rw [hi] at h; cases h
          · rw [hi] at h
            simp only at h
            rcases ht : tokenizeLine (pyStrip l) n with e | toks
            · rw [ht] at h; cases h
            · rw [ht] at h
              simp only at h
              have := ih (n + 1) stack₁ n' stack' h
              simp [this]; omega

/-- If the state-only prefix run succeeds and the token loop errors on the
remaining lines from the resulting state, the whole token loop errors the
same way. -/
lemma tokLines_append_error (pre : List (List Char)) :
    ∀ post n stack n' stack' e,
      procLines pre n stack = .ok (n', stack') →
      tokLines post n' stack' = .error e →
      tokLines (pre ++ post) n stack = .error e := by
  induction pre with
  | nil =>
      intro post n stack n' stack' e hpre hpost
      simp only [procLines] at hpre
      cases hpre
      simpa using hpost
  | cons l pre' ih =>
      intro post n stack n' stack' e hpre hpost
      simp only [procLines] at hpre
      simp only [List.cons_append, tokLines]
      by_cases hb : lineIsBlank l
      · rw [if_pos hb] at hpre
        rw [if_pos hb]
        exact ih post (n + 1) stack n' stack' e hpre hpost
      · rw [if_neg hb] at hpre
        rw [if_neg hb]
        rcases hv : validateIndentationIncrement (leadingSpaces l) n with e' | depth
        · rw [hv] at hpre; cases hpre
        · simp only
          rw [hv] at hpre
          simp only at hpre
          rcases hi : handleIndentationChange depth stack n with e' | ⟨its, stack₁⟩
          · rw [hi] at hpre; cases hpre
          · simp only
            rw [hi] at hpre
            simp only at hpre
            rcases ht : tokenizeLine (pyStrip l) n with e' | toks
            · rw [ht] at hpre; cases hpre
            · simp only
              rw [ht] at hpre
              simp only at hpre
              have := ih post (n + 1) stack₁ n' stack' e hpre hpost
              simp only [List.append_eq]
              rw [this]

/-!  ### Claim C7 -/

/-- **C7.** For every input line that is non-empty and whose count of leading
spaces is positive and not an exact multiple of 4, `tokenize` raises a
`TokenizerError` with message `"Invalid indentation: expected multiples of 4
spaces"` reported at that line's number (the hypotheses state that the line
loop reaches the offending line, i.e. the earlier lines process without an
error; the reported line number is the 1-based position of the line). -/
theorem c7_tokenize_invalid_indentation (s : String) (pre : List (List Char))
    (l : List Char) (rest : List (List Char)) (n' : Nat) (stack' : List Nat)
    (hsplit : splitLinesChar s.data = pre ++ l :: rest)
    (hpre : procLines pre 1 [0] = .ok (n', stack'))
    (hblank : lineIsBlank l = false)
    (hpos : 0 < leadingSpaces l)
    (hmod : leadingSpaces l % 4 ≠ 0) :
    tokenize s = .error (.tokenizerError
      ⟨"Invalid indentation: expected multiples of 4 spaces", n', 1⟩)
    ∧ n' = pre.length + 1 := by
  have hline_mem : l ∈ splitLinesChar s.data := by
    rw [hsplit]; exact List.mem_append_right _ (List.mem_cons_self _ _)
  have hnotall := not_all_space_of_nonblank_line s.data l hline_mem hblank
  have herr := tokLines_indent_error l rest n' stack' hblank hpos hmod
  have hfull := tokLines_append_error pre (l :: rest) 1 [0] n' stack' _ hpre herr
  refine ⟨?_, ?_⟩
  · unfold tokenize
    rw [hnotall]
    simp only [Bool.false_eq_true, if_false]
    rw [hsplit, hfull]
  · have := procLines_lineNum pre 1 [0] n' stack' hpre
    omega

/-- Witness for C7: the spec's scenario 5, `"let x integer = 5\n   print x"`
(3-space indent on line 2). -/
theorem c7_tokenize_invalid_indentation_witness :
    tokenize "let x integer = 5\n   print x" =
      .error (.tokenizerError
        ⟨"Invalid indentation: expected multiples of 4 spaces", 2, 1⟩) := by
  have h := c7_tokenize_invalid_indentation "let x integer = 5\n   print x"
    ["let x integer = 5".data] "   print x".data [] 2 [0]
    (by decide) (by decide) (by decide) (by decide) (by decide)
  exact h.1

/-!  ### Claim C9 -/

/-- **C9.** Whenever a `'-'` character is immediately followed by a digit, the
scanner folds the pair into a single numeric literal produced by
`_parse_number` (never a MINUS token) regardless of what precedes; in
particular `"5-3"` tokenizes as `IntegerToken 5, IntegerToken (-3)` with no
MINUS token (so the expression is not tokenized as a subtraction), while
`"5 - 3"` tokenizes with a MINUS token. -/
theorem c9_minus_digit_folds_into_negative_literal :
    tokenize "5-3" = .ok [.integerToken 5, .integerToken (-3)]
    ∧ tokenize "5 - 3" = .ok [.integerToken 5, .tok .minus, .integerToken 3]
    ∧ (∀ (f ln pos : Nat) (d : Char) (cs : List Char), d.isDigit = true →
        tokenizeChars (f + 1) ln ('-' :: d :: cs) pos =
          match parsePyNumber ln ('-' :: d :: cs) pos with
          | .error e => .error e
          | .ok (t, cs', pos') => (tokenizeChars f ln cs' pos').map (t :: ·))
    ∧ (∀ (ln pos : Nat) (d : Char) (cs : List Char) (t : TokenType)
        (cs' : List Char) (pos' : Nat),
        parsePyNumber ln ('-' :: d :: cs) pos = .ok (t, cs', pos') →
        (∃ n : Int, t = .integerToken n) ∨ (∃ q : ℚ, t = .floatToken q)) := by
  refine ⟨by decide, by decide, ?_, ?_⟩
  · intro f ln pos d cs hd
    rw [tokenizeChars]
    simp [tokenizeCharsStep, isNegativeNumberStart, hd]
  · intro ln pos d cs t cs' pos' h
    unfold parsePyNumber at h
    simp only at h
    split at h
    · split at h
      · cases h
      · cases h
        right
        exact ⟨_, rfl⟩
    · cases h
      left
      exact ⟨_, rfl⟩

/-- Witness for C9 (the general conjuncts have hypotheses): instantiated at
the line `"5-3"`, scanning position 1. -/
theorem c9_minus_digit_folds_into_negative_literal_witness :
    tokenizeChars 3 1 ['-', '3'] 1 =
      (match parsePyNumber 1 ['-', '3'] 1 with
        | .error e => .error e
        | .ok (t, cs', pos') => (tokenizeChars 2 1 cs' pos').map (t :: ·))
    ∧ ((∃ n : Int, TokenType.integerToken (-3) = .integerToken n)
        ∨ (∃ q : ℚ, TokenType.integerToken (-3) = .floatToken q)) :=
  ⟨c9_minus_digit_folds_into_negative_literal.2.2.1 2 1 1 '3' [] (by decide),
   c9_minus_digit_folds_into_negative_literal.2.2.2 1 1 '3' [] _ [] 3 (by decide)⟩

/-! ## Parser (`parser.py`)

The parser is embedded in the `Parser` namespace.  Its failure type has a
variant for the Python `AttributeError` raised by the source at the places
where it references the non-existent enum members `Token.ASSIGN` (in
`_parse_let_statement` and `_parse_set_statement`) and
`Token.IDENTICAL_TO` / `BinaryOperator.IDENTICAL_TO` (in the operator table
of `parse_comparison_expression`): the `Token` enum of `tokenizer.py` only
defines `EQUALS` and `EQUAL_EQUAL`, so evaluating these attribute accesses
raises `AttributeError`, which is not a `ParseError`.

The mutual recursion of the recursive-descent parser is organised as a
fuel-indexed family of parser records (`PInterp`): level `fuel + 1` makes
every recursive call through the level-`fuel` record, so the family is
definable by plain structural recursion on the fuel. -/

def ExprList.append : ExprList → ExprList → ExprList
  | .nil, l => l
  | .cons h t, l => .cons h (t.append l)

namespace Parser

/-- Failures of the embedded parser: a raised `ParseError`, a Python
`AttributeError` for a missing enum attribute, or fuel exhaustion of the
embedding. -/
inductive PFail where
  | parseError (message : String)
  | attributeError (missing : String)
  | fuelExhausted
  deriving DecidableEq, Repr

/-- The fixed message of `parse_statement`'s error branches. -/
def stmtErrMsg : String :=
  "Expected 'let', 'print', 'if', 'while', 'set', 'def', 'return', or comment statement"

/-- `_parse_type_annotation(token)` (returns a scalar type). -/
def parseTypeAnnotation : TokenType → Except PFail BaseTy
  | .tok .integerType => .ok .integer
  | .tok .booleanType => .ok .boolean
  | .tok .floatType => .ok .float
  | _ => .error (.parseError "Expected type annotation (integer, boolean, or float)")

/-- `_parse_type(tokens)`. -/
def parseType : List TokenType → Except PFail (Ty × List TokenType)
  | [] => .error (.parseError "Expected type")
  | .tok .listKw :: rest =>
      match rest with
      | .tok .ofKw :: t3 :: rest' =>
          match parseTypeAnnotation t3 with
          | .error e => .error e
          | .ok b => .ok (.listOf b, rest')
      | _ => .error (.parseError "Expected 'of' after 'list'")
  | t :: rest =>
      match parseTypeAnnotation t with
      | .error e => .error e
      | .ok b => .ok (.base b, rest)

/-- The record of mutually recursive parser functions. -/
structure PInterp where
  parseExpression : List TokenType → Except PFail (Expr × List TokenType)
  parseLogicalOr : List TokenType → Except PFail (Expr × List TokenType)
  parseLogicalAnd : List TokenType → Except PFail (Expr × List TokenType)
  parseUnaryLogical : List TokenType → Except PFail (Expr × List TokenType)
  parseComparison : List TokenType → Except PFail (Expr × List TokenType)
  parseAdditive : List TokenType → Except PFail (Expr × List TokenType)
  parseMultiplicative : List TokenType → Except PFail (Expr × List TokenType)
  parseFactor : List TokenType → Except PFail (Expr × List TokenType)
  parseBinaryRest : Expr → List TokenType → List (Token × BinOp) →
    (List TokenType → Except PFail (Expr × List TokenType)) →
    Except PFail (Expr × List TokenType)
  commaExprLoop : ExprList → List TokenType → Except PFail (ExprList × List TokenType)
  parseStatement : List TokenType → Except PFail (Stmt × List TokenType)
  parseStatements : List TokenType → Except PFail StmtList
  parseIndentedBlock : List TokenType → Except PFail (StmtList × List TokenType)
  funcBodyLoop : List TokenType → Except PFail (StmtList × List TokenType)
  paramLoop : List TokenType → Except PFail (List Parameter × List TokenType)

/-- Lookup in the operator tables of `parse_binary_rest`. -/
def opLookup : List (Token × BinOp) → Token → Option BinOp
  | [], _ => none
  | (t, op) :: rest, tok => if t = tok then some op else opLookup rest tok

/-- `parse_factor(tokens)`. -/
def parseFactorF (prev : PInterp) (tokens : List TokenType) :
    Except PFail (Expr × List TokenType) :=
  match tokens with
  | [] => .error (.parseError "Expected integer, float, identifier, boolean, or opening parenthesis")
  | .integerToken v :: rest => .ok (.integerLiteral v, rest)
  | .floatToken v :: rest => .ok (.floatLiteral v, rest)
  | .identifierToken name :: rest =>
      match rest with
      | .tok .leftParenthesis :: rest1 =>
          -- function call
          let argsResult : Except PFail (ExprList × List TokenType) :=
            match rest1 with
            | [] => .ok (.nil, [])
            | .tok .rightParenthesis :: _ => .ok (.nil, rest1)
            | _ =>
                match prev.parseExpression rest1 with
                | .error e => .error e
                | .ok (a, rem) => prev.commaExprLoop (.cons a .nil) rem
          match argsResult with
          | .error e => .error e
          | .ok (args, rem) =>
              match rem with
              | .tok .rightParenthesis :: rem2 => .ok (.call name args, rem2)
              | _ => .error (.parseError "Expected ')' after function arguments")
      | .tok .leftBracket :: rest1 =>
          -- list access: identifier[index]
          match prev.parseExpression rest1 with
          | .error e => .error e
          | .ok (idx, rem) =>
              match rem with
              | .tok .rightBracket :: rem2 => .ok (.listAccess (.variable name) idx, rem2)
              | _ => .error (.parseError "Expected ']' after list index")
      | _ => .ok (.variable name, rest)
  | .tok .trueKw :: rest => .ok (.booleanLiteral true, rest)
  | .tok .falseKw :: rest => .ok (.booleanLiteral false, rest)
  | .tok .leftParenthesis :: rest =>
      match prev.parseExpression rest with
      | .error e => .error e
      | .ok (e, rem) =>
          match rem with
          | .tok .rightParenthesis :: rem2 => .ok (e, rem2)
          | _ => .error (.parseError "Expected closing parenthesis")
  | .tok .leftBracket :: rest =>
      -- list literal
      match rest with
      | .tok .rightBracket :: rest2 => .ok (.listLiteral .nil, rest2)
      | [] => .error (.parseError "Expected ']' after list elements")
      | _ =>
          match prev.parseExpression rest with
          | .error e => .error e
          | .ok (e, rem) =>
              match prev.commaExprLoop (.cons e .nil) rem with
              | .error e' => .error e'
              | .ok (elems, rem2) =>
                  match rem2 with
                  | .tok .rightBracket :: rem3 => .ok (.listLiteral elems, rem3)
                  | _ => .error (.parseError "Expected ']' after list elements")
  | .tok .repeatKw :: rest =>
      match rest with
      | .tok .leftParenthesis :: rest2 =>
          match prev.parseExpression rest2 with
          | .error e => .error e
          | .ok (v, rem) =>
              match rem with
              | .tok .comma :: rem2 =>
                  match prev.parseExpression rem2 with
                  | .error e => .error e
                  | .ok (c, rem3) =>
                      match rem3 with
                      | .tok .rightParenthesis :: rem4 => .ok (.repeatCall v c, rem4)
                      | _ => .error (.parseError "Expected ')' after repeat arguments")
              | _ => .error (.parseError "Expected ',' after repeat value")
      | _ => .error (.parseError "Expected '(' after 'repeat'")
  | .tok .lenKw :: rest =>
      match rest with
      | .tok .leftParenthesis :: rest2 =>
          match prev.parseExpression rest2 with
          | .error e => .error e
          | .ok (e, rem) =>
              match rem with
              | .tok .rightParenthesis :: rem2 => .ok (.lenCall e, rem2)
              | _ => .error (.parseError "Expected ')' after len argument")
      | _ => .error (.parseError "Expected '(' after 'len'")
  | _ => .error (.parseError "Expected integer, float, identifier, boolean, or opening parenthesis")

/-- `parse_binary_rest(left_expr, tokens, operators, next_level_parser)`. -/
def parseBinaryRestF (prev : PInterp) (left : Expr) (tokens : List TokenType)
    (operators : List (Token × BinOp))
    (nextLevel : List TokenType → Except PFail (Expr × List TokenType)) :
    Except PFail (Expr × List TokenType) :=
  match tokens with
  | .tok t :: rest =>
      match opLookup operators t with
      | none => .ok (left, tokens)
      | some op =>
          match nextLevel rest with
          | .error e => .error e
          | .ok (right, remaining) =>
              prev.parseBinaryRest (.binary left op right) remaining operators nextLevel
  | _ => .ok (left, tokens)

/-- `_parse_let_statement(tokens)`.  After a successful type parse with a
non-empty remainder, the source evaluates `Token.ASSIGN`, which does not
exist in the `Token` enum: Python raises `AttributeError` there. -/
def parseLetStatementF (tokens : List TokenType) :
    Except PFail (Stmt × List TokenType) :=
  if tokens.length < 5 then
    .error (.parseError "Expected 'let identifier type = expression'")
  else
    match tokens.get? 1 with
    | some (.identifierToken _) =>
        match parseType (tokens.drop 2) with
        | .error e => .error e
        | .ok (_, rem) =>
            match rem with
            | [] => .error (.parseError "Expected '=' after type annotation")
            | _ :: _ => .error (.attributeError "ASSIGN")
    | _ => .error (.parseError "Expected 'let identifier type = expression'")

/-- `_parse_print_statement(tokens)`. -/
def parsePrintStatementF (prev : PInterp) (tokens : List TokenType) :
    Except PFail (Stmt × List TokenType) :=
  match prev.parseExpression tokens.tail with
  | .error e => .error e
  | .ok (e, rem) => .ok (.printS e, rem)

/-- `_parse_set_statement(tokens)`.  Both the list-assignment branch and the
plain-assignment branch compare against the non-existent `Token.ASSIGN`
whenever the relevant remainder is non-empty, raising `AttributeError`. -/
def parseSetStatementF (prev : PInterp) (tokens : List TokenType) :
    Except PFail (Stmt × List TokenType) :=
  if tokens.length < 4 then
    .error (.parseError "Expected 'set identifier = expression'")
  else
    match tokens.get? 1 with
    | some (.identifierToken _) =>
        match tokens.drop 2 with
        | .tok .leftBracket :: rest =>
            match prev.parseExpression rest with
            | .error e => .error e
            | .ok (_, rem) =>
                match rem with
                | .tok .rightBracket :: rem2 =>
                    match rem2 with
                    | [] => .error (.parseError "Expected '=' after list index")
                    | _ :: _ => .error (.attributeError "ASSIGN")
                | _ => .error (.parseError "Expected ']' after list index")
        | [] => .error (.parseError "Expected 'set identifier = expression'")
        | _ :: _ => .error (.attributeError "ASSIGN")
    | _ => .error (.parseError "Expected 'set identifier = expression'")

/-- `_parse_comment_statement(tokens)`. -/
def parseCommentStatementF (tokens : List TokenType) :
    Except PFail (Stmt × List TokenType) :=
  match tokens with
  | .tok .comment :: rest => .ok (.comment, rest)
  | _ => .error (.parseError "Expected comment")

/-- `_parse_control_flow_statement(tokens, expected_token, statement_name)`. -/
def parseControlFlowStatementF (prev : PInterp) (tokens : List TokenType)
    (expected : Token) (name : String) :
    Except PFail (Expr × StmtList × List TokenType) :=
  match tokens with
  | [] => .error (.parseError ("Expected '" ++ name ++ "'"))
  | t0 :: rest =>
      if t0 ≠ .tok expected then .error (.parseError ("Expected '" ++ name ++ "'"))
      else if rest.isEmpty then
        .error (.parseError ("Expected expression after '" ++ name ++ "'"))
      else
        match prev.parseExpression rest with
        | .error e => .error e
        | .ok (cond, rem) =>
            match rem with
            | .tok .statementSeparator :: rem2 =>
                match rem2 with
                | .tok .indent :: rem3 =>
                    match prev.parseIndentedBlock rem3 with
                    | .error e => .error e
                    | .ok (body, rem4) =>
                        match rem4 with
                        | .tok .dedent :: rem5 => .ok (cond, body, rem5)
                        | _ => .error (.parseError ("Expected dedent after '" ++ name ++ "' body"))
                | _ => .error (.parseError ("Expected indented block after '" ++ name ++ "'"))
            | _ => .error (.parseError ("Expected newline after '" ++ name ++ "' condition"))

/-- `parse_if_statement(tokens)`. -/
def parseIfStatementF (prev : PInterp) (tokens : List TokenType) :
    Except PFail (Stmt × List TokenType) :=
  match parseControlFlowStatementF prev tokens .ifKw "if" with
  | .error e => .error e
  | .ok (cond, body, rem) => .ok (.ifS cond body, rem)

/-- `parse_while_statement(tokens)`. -/
def parseWhileStatementF (prev : PInterp) (tokens : List TokenType) :
    Except PFail (Stmt × List TokenType) :=
  match parseControlFlowStatementF prev tokens .whileKw "while" with
  | .error e => .error e
  | .ok (cond, body, rem) => .ok (.whileS cond body, rem)

/-- `_parse_parameter_list(tokens)` (first parameter; the comma loop is the
`paramLoop` field). -/
def parseParameterListF (prev : PInterp) (tokens : List TokenType) :
    Except PFail (List Parameter × List TokenType) :=
  match tokens with
  | .tok .rightParenthesis :: _ => .ok ([], tokens)
  | .identifierToken pname :: rest =>
      if rest.isEmpty then .error (.parseError "Expected parameter type")
      else
        match parseType rest with
        | .error e => .error e
        | .ok (pty, rem) =>
            match prev.paramLoop rem with
            | .error e => .error e
            | .ok (more, rem2) => .ok (⟨pname, pty⟩ :: more, rem2)
  | _ => .error (.parseError "Expected parameter name")

/-- `_parse_function_declaration(tokens)`. -/
def parseFunctionDeclarationF (prev : PInterp) (tokens : List TokenType) :
    Except PFail (Stmt × List TokenType) :=
  if tokens.length < 6 then
    .error (.parseError "Expected 'def identifier(parameters) returns type'")
  else if tokens.get? 0 ≠ some (.tok .defKw) then
    .error (.parseError "Expected 'def'")
  else
    match tokens.get? 1 with
    | some (.identifierToken fname) =>
        if tokens.get? 2 ≠ some (.tok .leftParenthesis) then
          .error (.parseError "Expected '(' after function name")
        else
          match parseParameterListF prev (tokens.drop 3) with
          | .error e => .error e
          | .ok (params, rem) =>
              match rem with
              | .tok .rightParenthesis :: rem1 =>
                  match rem1 with
                  | .tok .returnsKw :: rem2 =>
                      if rem2.isEmpty then .error (.parseError "Expected return type")
                      else
                        match parseType rem2 with
                        | .error e => .error e
                        | .ok (rt, rem3) =>
                            match rem3 with
                            | .tok .statementSeparator :: rem4 =>
                                match rem4 with
                                | .tok .indent :: rem5 =>
                                    match prev.funcBodyLoop rem5 with
                                    | .error e => .error e
                                    | .ok (body, rem6) =>
                                        match rem6 with
                                        | .tok .dedent :: rem7 =>
                                            .ok (.functionDeclaration fname params rt body, rem7)
                                        | _ => .error (.parseError "Expected dedent after function body")
                                | _ => .error (.parseError "Expected indented function body")
                            | _ => .error (.parseError "Expected newline after function signature")
                  | _ => .error (.parseError "Expected 'returns'")
              | _ => .error (.parseError "Expected ')' after parameters")
    | _ => .error (.parseError "Expected function name")

/-- `_parse_return_statement(tokens)`. -/
def parseReturnStatementF (prev : PInterp) (tokens : List TokenType) :
    Except PFail (Stmt × List TokenType) :=
  if tokens.length < 2 then .error (.parseError "Expected 'return expression'")
  else if tokens.get? 0 ≠ some (.tok .returnKw) then .error (.parseError "Expected 'return'")
  else
    match prev.parseExpression tokens.tail with
    | .error e => .error e
    | .ok (e, rem) => .ok (.returnS e, rem)

/-- `parse_statement(tokens)`: dispatch by leading keyword token. -/
def parseStatementF (prev : PInterp) (tokens : List TokenType) :
    Except PFail (Stmt × List TokenType) :=
  match tokens with
  | [] => .error (.parseError stmtErrMsg)
  | .tok t :: _ =>
      if t = .letKw then parseLetStatementF tokens
      else if t = .printKw then parsePrintStatementF prev tokens
      else if t = .ifKw then parseIfStatementF prev tokens
      else if t = .whileKw then parseWhileStatementF prev tokens
      else if t = .setKw then parseSetStatementF prev tokens
      else if t = .comment then parseCommentStatementF tokens
      else if t = .defKw then parseFunctionDeclarationF prev tokens
      else if t = .returnKw then parseReturnStatementF prev tokens
      else .error (.parseError stmtErrMsg)
  | _ :: _ => .error (.parseError stmtErrMsg)

/-- Build the level-`fuel+1` parser record from the level-`fuel` one. -/
def mkPInterp (prev : PInterp) : PInterp where
  parseExpression := fun tokens => prev.parseLogicalOr tokens
  parseLogicalOr := fun tokens =>
    match prev.parseLogicalAnd tokens with
    | .error e => .error e
    | .ok (l, rem) =>
        prev.parseBinaryRest l rem [(.orKw, .orOp)] prev.parseLogicalAnd
  parseLogicalAnd := fun tokens =>
    match prev.parseUnaryLogical tokens with
    | .error e => .error e
    | .ok (l, rem) =>
        prev.parseBinaryRest l rem [(.andKw, .andOp)] prev.parseUnaryLogical
  parseUnaryLogical := fun tokens =>
    match tokens with
    | .tok .notKw :: rest =>
        match prev.parseUnaryLogical rest with
        | .error e => .error e
        | .ok (operand, rem) => .ok (.unary .notOp operand, rem)
    | _ => prev.parseComparison tokens
  parseComparison := fun tokens =>
    match prev.parseAdditive tokens with
    | .error e => .error e
    | .ok (_, _) =>
        -- the operator table of `parse_comparison_expression` evaluates
        -- `Token.IDENTICAL_TO`, which the Token enum does not define:
        -- Python raises AttributeError while building the dict literal
        .error (.attributeError "IDENTICAL_TO")
  parseAdditive := fun tokens =>
    match prev.parseMultiplicative tokens with
    | .error e => .error e
    | .ok (l, rem) =>
        prev.parseBinaryRest l rem
          [(.plus, .addition), (.minus, .subtraction)] prev.parseMultiplicative
  parseMultiplicative := fun tokens =>
    match prev.parseFactor tokens with
    | .error e => .error e
    | .ok (l, rem) =>
        prev.parseBinaryRest l rem
          [(.multiply, .multiplication), (.divide, .division), (.modulus, .modulus)]
          prev.parseFactor
  parseFactor := fun tokens => parseFactorF prev tokens
  parseBinaryRest := fun left tokens operators nextLevel =>
    parseBinaryRestF prev left tokens operators nextLevel
  commaExprLoop := fun acc tokens =>
    match tokens with
    | .tok .comma :: rest =>
        match prev.parseExpression rest with
        | .error e => .error e
        | .ok (e, rem) => prev.commaExprLoop (acc.append (.cons e .nil)) rem
    | _ => .ok (acc, tokens)
  parseStatement := fun tokens => parseStatementF prev tokens
  parseStatements := fun tokens =>
    match tokens with
    | [] => .ok .nil
    | .tok .statementSeparator :: rest => prev.parseStatements rest
    | _ =>
        match prev.parseStatement tokens with
        | .error e => .error e
        | .ok (s, rem) =>
            let rem2 := match rem with
              | .tok .statementSeparator :: r => r
              | _ => rem
            match prev.parseStatements rem2 with
            | .error e => .error e
            | .ok ss => .ok (.cons s ss)
  parseIndentedBlock := fun tokens =>
    match tokens with
    | [] => .ok (.nil, [])
    | .tok .dedent :: _ => .ok (.nil, tokens)
    | .tok .statementSeparator :: rest => prev.parseIndentedBlock rest
    | .tok .indent :: rest => prev.parseIndentedBlock rest
    | _ =>
        match prev.parseStatement tokens with
        | .error e => .error e
        | .ok (s, rem) =>
            match prev.parseIndentedBlock rem with
            | .error e => .error e
            | .ok (ss, rem2) => .ok (.cons s ss, rem2)
  funcBodyLoop := fun tokens =>
    match tokens with
    | [] => .ok (.nil, [])
    | .tok .dedent :: _ => .ok (.nil, tokens)
    | _ =>
        match prev.parseStatement tokens with
        | .error e => .error e
        | .ok (s, rem) =>
            let rem2 := match rem with
              | .tok .statementSeparator :: r => r
              | _ => rem
            match prev.funcBodyLoop rem2 with
            | .error e => .error e
            | .ok (ss, rem3) => .ok (.cons s ss, rem3)
  paramLoop := fun tokens =>
    match tokens with
    | .tok .comma :: rest =>
        match rest with
        | .identifierToken pname :: rest2 =>
            if rest2.isEmpty then .error (.parseError "Expected parameter type")
            else
              match parseType rest2 with
              | .error e => .error e
              | .ok (pty, rem) =>
                  match prev.paramLoop rem with
                  | .error e => .error e
                  | .ok (more, rem2) => .ok (⟨pname, pty⟩ :: more, rem2)
        | _ => .error (.parseError "Expected parameter name after comma")
    | _ => .ok ([], tokens)

/-- The level-0 parser record: everything is out of fuel. -/
def pFailInterp : PInterp where
  parseExpression := fun _ => .error .fuelExhausted
  parseLogicalOr := fun _ => .error .fuelExhausted
  parseLogicalAnd := fun _ => .error .fuelExhausted
  parseUnaryLogical := fun _ => .error .fuelExhausted
  parseComparison := fun _ => .error .fuelExhausted
  parseAdditive := fun _ => .error .fuelExhausted
  parseMultiplicative := fun _ => .error .fuelExhausted
  parseFactor := fun _ => .error .fuelExhausted
  parseBinaryRest := fun _ _ _ _ => .error .fuelExhausted
  commaExprLoop := fun _ _ => .error .fuelExhausted
  parseStatement := fun _ => .error .fuelExhausted
  parseStatements := fun _ => .error .fuelExhausted
  parseIndentedBlock := fun _ => .error .fuelExhausted
  funcBodyLoop := fun _ => .error .fuelExhausted
  paramLoop := fun _ => .error .fuelExhausted

/-- The fuel-indexed family of parser records. -/
def pinterpGo : Nat → PInterp
  | 0 => pFailInterp
  | f + 1 => mkPInterp (pinterpGo f)

/-- `parse_expression(tokens)` at a given fuel. -/
def parseExpression (fuel : Nat) (tokens : List TokenType) :
    Except PFail (Expr × List TokenType) :=
  (pinterpGo fuel).parseExpression tokens

/-- `parse_comparison_expression(tokens)` at a given fuel. -/
def parseComparisonExpression (fuel : Nat) (tokens : List TokenType) :
    Except PFail (Expr × List TokenType) :=
  (pinterpGo fuel).parseComparison tokens

/-- `parse(tokens)` (= `parse_statements(tokens)`) at a given fuel. -/
def parse (fuel : Nat) (tokens : List TokenType) : Except PFail StmtList :=
  (pinterpGo fuel).parseStatements tokens

end Parser

/-!  ### Claim C1 -/

/-- **C1** (code bug).  The claim says that `parse` maps every
grammar-conforming token sequence to the corresponding statements and that
every failure it raises is a `ParseError`; in particular that the tokens of
`let x integer = 5` parse to a single Let statement and `a == b` parses to a
BinaryExpression with the equality operator.  The code instead references
the non-existent enum members `Token.ASSIGN` (in `_parse_let_statement`) and
`Token.IDENTICAL_TO` (in `parse_comparison_expression`'s operator table), so
both inputs raise Python `AttributeError` — not a `ParseError`, and no Let
statement or BinaryExpression is produced. -/
theorem c1_parse_raises_attribute_error :
    tokenize "let x integer = 5" =
      .ok [.tok .letKw, .identifierToken "x", .tok .integerType, .tok .equals,
           .integerToken 5]
    ∧ Parser.parse 100
        [.tok .letKw, .identifierToken "x", .tok .integerType, .tok .equals,
         .integerToken 5]
      = .error (.attributeError "ASSIGN")
    ∧ Parser.parseComparisonExpression 100
        [.identifierToken "a", .tok .equalEqual, .identifierToken "b"]
      = .error (.attributeError "IDENTICAL_TO")
    ∧ Parser.parseExpression 100
        [.identifierToken "a", .tok .equalEqual, .identifierToken "b"]
      = .error (.attributeError "IDENTICAL_TO")
    ∧ (∀ msg, (Parser.PFail.attributeError "ASSIGN") ≠ .parseError msg)
    ∧ (∀ msg, (Parser.PFail.attributeError "IDENTICAL_TO") ≠ .parseError msg) := by
  refine ⟨by decide, by decide, by decide, by decide, ?_, ?_⟩
  · intro msg h; cases h
  · intro msg h; cases h

/-! ## Type checker (`type_checker.py`) -/

namespace TypeChecker

/-- Failures of the embedded type checker: a raised `TypeCheckError`, the
Python `AttributeError` raised by `_validate_boolean_condition` when the
condition type is a `ListType` (which has no `.value` attribute), or fuel
exhaustion of the embedding. -/
inductive TCFail where
  | typeCheckError (message : String)
  | attributeError (missing : String)
  | fuelExhausted
  deriving DecidableEq, Repr

/-- The mutable state of `TypeCheckVisitor`: `symbol_table`,
`function_table` (name ↦ (parameter types, return type)) and
`current_function_return_type`. -/
structure TCState where
  symbolTable : List (String × Ty)
  functionTable : List (String × (List Ty × Ty))
  currentFunctionReturnType : Option Ty
  deriving DecidableEq, Repr

/-- `_type_to_string(type_obj)`. -/
def typeToString : Ty → String
  | .base .integer => "integer"
  | .base .boolean => "boolean"
  | .base .float => "float"
  | .listOf .integer => "list of integer"
  | .listOf .boolean => "list of boolean"
  | .listOf .float => "list of float"

/-- `_types_equal(type1, type2)` (structural equality of types). -/
def typesEqual (a b : Ty) : Bool := a = b

/-- `BinaryOperator.value` strings used in error messages. -/
def binOpValue : BinOp → String
  | .addition => "Addition"
  | .subtraction => "Subtraction"
  | .multiplication => "Multiplication"
  | .division => "Division"
  | .modulus => "Modulus"
  | .lessThan => "LessThan"
  | .greaterThan => "GreaterThan"
  | .lessThanOrEqual => "LessThanOrEqual"
  | .greaterThanOrEqual => "GreaterThanOrEqual"
  | .equalEqual => "EqualEqual"
  | .notEqual => "NotEqual"
  | .andOp => "And"
  | .orOp => "Or"

/-- Membership in the `arithmetic_ops` set of `visit_binary_op`. -/
def isArithmeticOp : BinOp → Bool
  | .addition | .subtraction | .multiplication | .division => true
  | _ => false

/-- Membership in the `comparison_ops` set of `visit_binary_op`. -/
def isComparisonOp : BinOp → Bool
  | .lessThan | .greaterThan | .lessThanOrEqual | .greaterThanOrEqual => true
  | _ => false

/-- Membership in the `equality_ops` set of `visit_binary_op`. -/
def isEqualityOp : BinOp → Bool
  | .equalEqual | .notEqual => true
  | _ => false

/-- Membership in the `logical_ops` set of `visit_binary_op`. -/
def isLogicalOp : BinOp → Bool
  | .andOp | .orOp => true
  | _ => false

/-- Membership in the `numeric_types` set (`Integer`, `Float`). -/
def isNumericTy (t : Ty) : Bool := t = .base .integer || t = .base .float

/-- `_validate_integer_operands`. -/
def validateIntegerOperands (lt rt : Ty) (op : BinOp) : Except TCFail Unit :=
  if lt ≠ .base .integer ∨ rt ≠ .base .integer then
    .error (.typeCheckError ("Operator " ++ binOpValue op ++ " requires integer operands"))
  else .ok ()

/-- `_validate_same_type_operands`. -/
def validateSameTypeOperands (lt rt : Ty) (op : BinOp) : Except TCFail Unit :=
  if lt ≠ rt then
    .error (.typeCheckError ("Operator " ++ binOpValue op ++ " requires operands of same type"))
  else .ok ()

/-- `_validate_numeric_operands`. -/
def validateNumericOperands (lt rt : Ty) (op : BinOp) : Except TCFail Unit :=
  if !(isNumericTy lt) || !(isNumericTy rt) then
    .error (.typeCheckError ("Operator " ++ binOpValue op ++ " requires numeric operands"))
  else .ok ()

/-- `_validate_boolean_operands`. -/
def validateBooleanOperands (lt rt : Ty) (op : BinOp) : Except TCFail Unit :=
  if lt ≠ .base .boolean ∨ rt ≠ .base .boolean then
    .error (.typeCheckError ("Operator " ++ binOpValue op ++ " requires boolean operands"))
  else .ok ()

/-- `_check_arithmetic_operation(left_type, right_type, operator)`: validate
numeric operands and apply the float-promotion rule. -/
def checkArithmeticOperation (lt rt : Ty) (op : BinOp) : Except TCFail Ty :=
  match validateNumericOperands lt rt op with
  | .error e => .error e
  | .ok _ =>
      if lt = .base .float ∨ rt = .base .float then .ok (.base .float)
      else .ok (.base .integer)

/-- The binary-operator dispatch of `visit_binary_op`, applied to the
already-computed operand types. -/
def checkBinaryOpTypes (lt rt : Ty) (op : BinOp) : Except TCFail Ty :=
  if isArithmeticOp op then checkArithmeticOperation lt rt op
  else if op = .modulus then
    match validateIntegerOperands lt rt op with
    | .error e => .error e
    | .ok _ => .ok (.base .integer)
  else if isComparisonOp op then
    match validateNumericOperands lt rt op with
    | .error e => .error e
    | .ok _ => .ok (.base .boolean)
  else if isEqualityOp op then
    match validateSameTypeOperands lt rt op with
    | .error e => .error e
    | .ok _ => .ok (.base .boolean)
  else
    -- logical_ops is the remaining case; the enum has no other members
    match validateBooleanOperands lt rt op with
    | .error e => .error e
    | .ok _ => .ok (.base .boolean)

/-- `visit_function_declaration`'s parameter loop: parameters are added to
the (non-fresh) enclosing symbol table, raising on any existing binding. -/
def bindParams : TCState → List Parameter → Except TCFail TCState
  | st, [] => .ok st
  | st, p :: rest =>
      if dictMem st.symbolTable p.name then
        .error (.typeCheckError ("Parameter '" ++ p.name ++ "' conflicts with existing variable"))
      else
        bindParams
          { st with symbolTable := dictInsert st.symbolTable p.name p.typeAnnot } rest

/-- Is a statement a `Return` (the `isinstance(stmt, Return)` test of the
`has_return` tracking)? -/
def isReturnStmt : Stmt → Bool
  | .returnS _ => true
  | _ => false

def ExprList.length : ExprList → Nat
  | .nil => 0
  | .cons _ t => 1 + ExprList.length t

/-- The record of mutually recursive checker functions. -/
structure TCI where
  checkExpr : TCState → Expr → Except TCFail Ty
  checkArgs : TCState → String → Nat → ExprList → List Ty → Except TCFail Unit
  checkElems : TCState → Ty → Nat → ExprList → Except TCFail Unit
  checkStmt : TCState → Stmt → Except TCFail TCState
  checkStmts : TCState → StmtList → Except TCFail TCState
  checkFunBody : TCState → Bool → StmtList → Except TCFail (TCState × Bool)

/-- The expression visitor (`visit_*` expression methods), one level. -/
def checkExprF (prev : TCI) (st : TCState) : Expr → Except TCFail Ty
  | .integerLiteral _ => .ok (.base .integer)
  | .booleanLiteral _ => .ok (.base .boolean)
  | .floatLiteral _ => .ok (.base .float)
  | .variable name =>
      match dictGet st.symbolTable name with
      | none => .error (.typeCheckError ("Variable '" ++ name ++ "' is not declared"))
      | some t => .ok t
  | .binary l op r =>
      match prev.checkExpr st l with
      | .error e => .error e
      | .ok lt =>
          match prev.checkExpr st r with
          | .error e => .error e
          | .ok rt => checkBinaryOpTypes lt rt op
  | .unary _ operand =>
      -- the only operator is NOT
      match prev.checkExpr st operand with
      | .error e => .error e
      | .ok t =>
          if t ≠ .base .boolean then
            .error (.typeCheckError
              ("Operator 'not' requires boolean operand, got " ++ typeToString t))
          else .ok (.base .boolean)
  | .call fname args =>
      match dictGet st.functionTable fname with
      | none => .error (.typeCheckError ("Function '" ++ fname ++ "' is not declared"))
      | some (paramTys, retTy) =>
          if ExprList.length args ≠ paramTys.length then
            .error (.typeCheckError
              ("Function '" ++ fname ++ "' expects " ++ toString paramTys.length ++
               " arguments, got " ++ toString (ExprList.length args)))
          else
            match prev.checkArgs st fname 0 args paramTys with
            | .error e => .error e
            | .ok _ => .ok retTy
  | .listLiteral elems =>
      match elems with
      | .nil => .error (.typeCheckError "Cannot infer type of empty list literal")
      | .cons e0 rest =>
          match prev.checkExpr st e0 with
          | .error e => .error e
          | .ok t0 =>
              match prev.checkElems st t0 1 rest with
              | .error e => .error e
              | .ok _ =>
                  match t0 with
                  | .listOf _ => .error (.typeCheckError "Nested lists are not supported")
                  | .base b => .ok (.listOf b)
  | .listAccess le idx =>
      match prev.checkExpr st le with
      | .error e => .error e
      | .ok lt =>
          match lt with
          | .base _ =>
              .error (.typeCheckError
                ("Cannot index into non-list expression of type " ++ typeToString lt))
          | .listOf b =>
              match prev.checkExpr st idx with
              | .error e => .error e
              | .ok it =>
                  if it ≠ .base .integer then
                    .error (.typeCheckError ("List index must be integer, got " ++ typeToString it))
                  else .ok (.base b)
  | .repeatCall v cnt =>
      match prev.checkExpr st v with
      | .error e => .error e
      | .ok vt =>
          match vt with
          | .listOf _ => .error (.typeCheckError "Cannot repeat a list value")
          | .base b =>
              match prev.checkExpr st cnt with
              | .error e => .error e
              | .ok ct =>
                  if ct ≠ .base .integer then
                    .error (.typeCheckError ("Repeat count must be integer, got " ++ typeToString ct))
                  else .ok (.listOf b)
  | .lenCall le =>
      match prev.checkExpr st le with
      | .error e => .error e
      | .ok lt =>
          match lt with
          | .base _ =>
              .error (.typeCheckError
                ("Cannot get length of non-list expression of type " ++ typeToString lt))
          | .listOf _ => .ok (.base .integer)

/-- `_validate_boolean_condition(condition_type)` applied to the computed
condition type.  On a non-boolean scalar type the error message uses
`cond_type.value.lower()`; a `ListType` condition makes the source evaluate
`.value` on a `ListType`, which raises `AttributeError`. -/
def validateBooleanConditionTy (t : Ty) (statementType : String) : Except TCFail Unit :=
  match t with
  | .base .boolean => .ok ()
  | .base b =>
      .error (.typeCheckError
        (statementType ++ " condition must be boolean, got " ++ typeToString (.base b)))
  | .listOf _ => .error (.attributeError "value")

/-- The statement visitor (`visit_*` statement methods), one level. -/
def checkStmtF (prev : TCI) (st : TCState) : Stmt → Except TCFail TCState
  | .letS name ty expr =>
      if dictMem st.symbolTable name then
        .error (.typeCheckError ("Variable '" ++ name ++ "' is already declared"))
      else
        match prev.checkExpr st expr with
        | .error e => .error e
        | .ok exprTy =>
            if ¬ typesEqual exprTy ty then
              .error (.typeCheckError
                ("Type mismatch: cannot assign " ++ typeToString exprTy ++
                 " to variable '" ++ name ++ "' of type " ++ typeToString ty))
            else .ok { st with symbolTable := dictInsert st.symbolTable name ty }
  | .setS name expr =>
      match dictGet st.symbolTable name with
      | none => .error (.typeCheckError ("Variable '" ++ name ++ "' is not declared"))
      | some varTy =>
          match prev.checkExpr st expr with
          | .error e => .error e
          | .ok exprTy =>
              if ¬ typesEqual exprTy varTy then
                .error (.typeCheckError
                  ("Type mismatch: cannot assign " ++ typeToString exprTy ++
                   " to variable '" ++ name ++ "' of type " ++ typeToString varTy))
              else .ok st
  | .listAssignment lname idx val =>
      match dictGet st.symbolTable lname with
      | none => .error (.typeCheckError ("Variable '" ++ lname ++ "' is not declared"))
      | some varTy =>
          match varTy with
          | .base _ =>
              .error (.typeCheckError
                ("Cannot index into non-list variable '" ++ lname ++ "' of type " ++
                 typeToString varTy))
          | .listOf elemB =>
              match prev.checkExpr st idx with
              | .error e => .error e
              | .ok idxTy =>
                  if idxTy ≠ .base .integer then
                    .error (.typeCheckError
                      ("List index must be integer, got " ++ typeToString idxTy))
                  else
                    match prev.checkExpr st val with
                    | .error e => .error e
                    | .ok valTy =>
                        if ¬ typesEqual valTy (.base elemB) then
                          .error (.typeCheckError
                            ("Type mismatch: cannot assign " ++ typeToString valTy ++
                             " to list element of type " ++ typeToString (.base elemB)))
                        else .ok st
  | .printS expr =>
      match prev.checkExpr st expr with
      | .error e => .error e
      | .ok _ => .ok st
  | .ifS cond body =>
      match prev.checkExpr st cond with
      | .error e => .error e
      | .ok condTy =>
          match validateBooleanConditionTy condTy "If" with
          | .error e => .error e
          | .ok _ => prev.checkStmts st body
  | .whileS cond body =>
      match prev.checkExpr st cond with
      | .error e => .error e
      | .ok condTy =>
          match validateBooleanConditionTy condTy "While" with
          | .error e => .error e
          | .ok _ => prev.checkStmts st body
  | .comment => .ok st
  | .functionDeclaration fname params retTy body =>
      if dictMem st.functionTable fname then
        .error (.typeCheckError ("Function '" ++ fname ++ "' is already declared"))
      else
        let paramTys := params.map (·.typeAnnot)
        let st₁ := { st with
          functionTable := dictInsert st.functionTable fname (paramTys, retTy) }
        match bindParams st₁ params with
        | .error e => .error e
        | .ok st₂ =>
            match prev.checkFunBody
                { st₂ with currentFunctionReturnType := some retTy } false body with
            | .error e => .error e
            | .ok (st₄, hasReturn) =>
                if ¬ hasReturn then
                  .error (.typeCheckError
                    ("Function '" ++ fname ++ "' must have a return statement"))
                else
                  .ok { st₄ with
                    symbolTable := st₁.symbolTable,
                    currentFunctionReturnType := st.currentFunctionReturnType }
  | .returnS expr =>
      match st.currentFunctionReturnType with
      | none => .error (.typeCheckError "Return statement must be inside a function")
      | some rt =>
          match prev.checkExpr st expr with
          | .error e => .error e
          | .ok et =>
              if ¬ typesEqual et rt then
                .error (.typeCheckError
                  ("Return type mismatch: expected " ++ typeToString rt ++
                   ", got " ++ typeToString et))
              else .ok st

/-- The function-body loop of `visit_function_declaration`, threading the
`has_return` flag (`if isinstance(stmt, Return): has_return = True`). -/
def checkFunBodyF (prev : TCI) : TCState → Bool → StmtList →
    Except TCFail (TCState × Bool)
  | st, hr, .nil => .ok (st, hr)
  | st, hr, .cons s rest =>
      match prev.checkStmt st s with
      | .error e => .error e
      | .ok st' => prev.checkFunBody st' (hr || isReturnStmt s) rest

/-- Build the level-`fuel+1` checker record from the level-`fuel` one. -/
def mkTCI (prev : TCI) : TCI where
  checkExpr := fun st e => checkExprF prev st e
  checkArgs := fun st fname i args ptys =>
    match args, ptys with
    | .cons a args', pt :: ptys' =>
        match prev.checkExpr st a with
        | .error e => .error e
        | .ok argTy =>
            if ¬ typesEqual argTy pt then
              .error (.typeCheckError
                ("Argument " ++ toString (i + 1) ++ " to function '" ++ fname ++
                 "': expected " ++ typeToString pt ++ ", got " ++ typeToString argTy))
            else prev.checkArgs st fname (i + 1) args' ptys'
    | _, _ => .ok ()
  checkElems := fun st t0 i elems =>
    match elems with
    | .nil => .ok ()
    | .cons e rest =>
        match prev.checkExpr st e with
        | .error e' => .error e'
        | .ok et =>
            if ¬ typesEqual et t0 then
              .error (.typeCheckError
                ("List elements must be homogeneous: element 0 is " ++ typeToString t0 ++
                 ", element " ++ toString i ++ " is " ++ typeToString et))
            else prev.checkElems st t0 (i + 1) rest
  checkStmt := fun st s => checkStmtF prev st s
  checkStmts := fun st l =>
    match l with
    | .nil => .ok st
    | .cons s rest =>
        match prev.checkStmt st s with
        | .error e => .error e
        | .ok st' => prev.checkStmts st' rest
  checkFunBody := fun st hr l => checkFunBodyF prev st hr l

/-- The level-0 checker record: everything is out of fuel. -/
def tcFailInterp : TCI where
  checkExpr := fun _ _ => .error .fuelExhausted
  checkArgs := fun _ _ _ _ _ => .error .fuelExhausted
  checkElems := fun _ _ _ _ => .error .fuelExhausted
  checkStmt := fun _ _ => .error .fuelExhausted
  checkStmts := fun _ _ => .error .fuelExhausted
  checkFunBody := fun _ _ _ => .error .fuelExhausted

/-- The fuel-indexed family of checker records. -/
def tciGo : Nat → TCI
  | 0 => tcFailInterp
  | f + 1 => mkTCI (tciGo f)

/-- Check a single statement at a given fuel. -/
def checkStatement (fuel : Nat) (st : TCState) (s : Stmt) : Except TCFail TCState :=
  (tciGo fuel).checkStmt st s

/-- Compute the static type of an expression at a given fuel. -/
def checkExpression (fuel : Nat) (st : TCState) (e : Expr) : Except TCFail Ty :=
  (tciGo fuel).checkExpr st e

/-- The empty initial state of `TypeCheckVisitor.__init__`. -/
def initState : TCState := ⟨[], [], none⟩

/-- `type_check(ast)` at a given fuel. -/
def typeCheck (fuel : Nat) (ast : StmtList) : Except TCFail Unit :=
  match (tciGo fuel).checkStmts initState ast with
  | .error e => .error e
  | .ok _ => .ok ()

/-- The `has_return` flag computed by the function-body loop is the flag it
started with, or-ed with whether any top-level statement of the body is a
`Return`. -/
lemma checkFunBody_hasReturn :
    ∀ (fuel : Nat) (body : StmtList) (st : TCState) (hr : Bool)
      (st' : TCState) (hr' : Bool),
      (tciGo fuel).checkFunBody st hr body = .ok (st', hr') →
      hr' = (hr || body.any isReturnStmt) := by
  intro fuel
  induction fuel with
  | zero =>
      intro body st hr st' hr' h
      simp [tciGo, tcFailInterp] at h
  | succ g ih =>
      intro body st hr st' hr' h
      cases body with
      | nil =>
          simp only [tciGo, mkTCI, checkFunBodyF] at h
          cases h
          simp [StmtList.any]
      | cons s rest =>
          simp only [tciGo, mkTCI, checkFunBodyF] at h
          rcases hs : (tciGo g).checkStmt st s with e | st₁
          · rw [hs] at h; cases h
          · rw [hs] at h
            simp only at h
            have := ih rest st₁ (hr || isReturnStmt s) st' hr' h
            simp [this, StmtList.any, Bool.or_assoc]

end TypeChecker

/-!  ### Claim C3 -/

/-- **C3 counterexample.**  The claim states that a function whose only
return statement sits inside a nested `if` block is accepted; the code's
`has_return` tracking only inspects the top-level statements of the body
(`isinstance(stmt, Return)` in the direct loop), so such a function is
rejected with the must-have-return error. -/
theorem c3_nested_return_rejected :
    TypeChecker.typeCheck 50
      (.cons (.functionDeclaration "f" [] (.base .integer)
        (.cons (.ifS (.booleanLiteral true)
          (.cons (.returnS (.integerLiteral 1)) .nil)) .nil)) .nil)
      = .error (.typeCheckError "Function 'f' must have a return statement") := by
  decide

/-- **C3 (amended).**  `type_check` rejects a function declaration with the
`"must have a return statement"` error if and only if no **top-level**
statement of the function's body is a return statement (a return nested
inside an `if`/`while` body does not count) — stated here under the
hypotheses that the function name is fresh, the parameters bind without a
conflict, and the body itself checks without error (otherwise that earlier
error is raised instead). -/
theorem c3_must_have_return_iff_no_top_level_return
    (fuel : Nat) (st st₂ st₄ : TypeChecker.TCState) (hr : Bool)
    (fname : String) (params : List Parameter) (retTy : Ty) (body : StmtList)
    (hname : dictMem st.functionTable fname = false)
    (hparams : TypeChecker.bindParams
      { st with functionTable :=
          dictInsert st.functionTable fname (params.map (·.typeAnnot), retTy) }
      params = .ok st₂)
    (hbody : (TypeChecker.tciGo fuel).checkFunBody
      { st₂ with currentFunctionReturnType := some retTy } false body = .ok (st₄, hr)) :
    TypeChecker.checkStatement (fuel + 1) st
        (.functionDeclaration fname params retTy body)
      = .error (.typeCheckError ("Function '" ++ fname ++ "' must have a return statement"))
    ↔ body.any TypeChecker.isReturnStmt = false := by
  have hhr := TypeChecker.checkFunBody_hasReturn fuel body _ false st₄ hr hbody
  simp only [Bool.false_or] at hhr
  unfold TypeChecker.checkStatement
  simp only [TypeChecker.tciGo, TypeChecker.mkTCI, TypeChecker.checkStmtF]
  rw [hname]
  simp only [Bool.false_eq_true, if_false]
  rw [hparams]
  simp only
  rw [hbody]
  simp only
  rw [hhr]
  cases hany : body.any TypeChecker.isReturnStmt with
  | true => simp
  | false => simp

/-- Witness for the amended C3 theorem: a function whose body is a single
print statement (no top-level return) is rejected with the
must-have-return error. -/
theorem c3_must_have_return_iff_no_top_level_return_witness :
    (TypeChecker.checkStatement 11 TypeChecker.initState
        (.functionDeclaration "f" [] (.base .integer)
          (.cons (.printS (.integerLiteral 1)) .nil))
      = .error (.typeCheckError "Function 'f' must have a return statement")
    ↔ (StmtList.cons (.printS (.integerLiteral 1)) .nil).any
        TypeChecker.isReturnStmt = false) :=
  c3_must_have_return_iff_no_top_level_return 10 TypeChecker.initState
    ⟨[], [("f", ([], .base .integer))], none⟩
    ⟨[], [("f", ([], .base .integer))], some (.base .integer)⟩ false
    "f" [] (.base .integer) (.cons (.printS (.integerLiteral 1)) .nil)
    (by decide) (by decide) (by decide)

/-! ## Evaluator (`evaluator.py`)

The evaluator is embedded in the `Evaluator` namespace.  The single shared
cost cell (`Environment._cost_ref`, a one-element Python list shared by
reference between environment copies) is modelled as an explicit store
`Store = Nat → Int` together with a cell reference `costRef : Nat` held by
each `Environment` value.  Exceptions (including the internal
`ReturnException` used for early returns) are modelled by the result type
`ERes`, which carries the store at the moment of the raise so that the cost
increments performed before an exception remain visible to a handler.
Standard output produced by `print` is not modelled; the `print_results`
collection (the observable output of `execute`) is. -/

namespace Evaluator

/-- A scalar runtime value (`int | bool | float`); the elements of runtime
lists are scalars (`list[int | bool | float]`). -/
inductive Scalar where
  | int (n : Int)
  | bool (b : Bool)
  | float (q : ℚ)
  deriving DecidableEq, Repr

/-- `RuntimeValue = int | bool | float | list[int | bool | float]`. -/
inductive RuntimeValue where
  | int (n : Int)
  | bool (b : Bool)
  | float (q : ℚ)
  | list (l : List Scalar)
  deriving DecidableEq, Repr

def Scalar.toRV : Scalar → RuntimeValue
  | .int n => .int n
  | .bool b => .bool b
  | .float q => .float q

/-- The `isinstance(value, (int, bool, float))` test, returning the scalar. -/
def RuntimeValue.asScalar : RuntimeValue → Option Scalar
  | .int n => some (.int n)
  | .bool b => some (.bool b)
  | .float q => some (.float q)
  | .list _ => none

/-- `type(value).__name__` (used in error messages). -/
def pyTypeName : RuntimeValue → String
  | .int _ => "int"
  | .bool _ => "bool"
  | .float _ => "float"
  | .list _ => "list"

/-- Errors and non-local control flow of the evaluator: `EvaluationError`,
`KeyError` (raised by `Environment.find`/`set`/`set_list_element` on a
missing name), the internal `ReturnException` carrying the returned value,
and fuel exhaustion of the embedding. -/
inductive EvalErr where
  | evaluationError (message : String)
  | keyError (message : String)
  | returnSignal (value : RuntimeValue)
  | fuelExhausted
  deriving DecidableEq, Repr

/-- The heap of cost cells; `Environment._cost_ref` is an index into it. -/
def Store : Type := Nat → Int

/-- `Environment`: persistent name→value bindings, a function table, and a
shared-by-reference cost cell. -/
structure Environment where
  env : List (String × RuntimeValue)
  functions : List (String × (List Parameter × Ty × StmtList))
  costRef : Nat
  deriving DecidableEq, Repr

/-- `env.increment_cost()`: add 1 to the shared cost cell. -/
def incrementCost (σ : Store) (e : Environment) : Store :=
  fun r => if r = e.costRef then σ r + 1 else σ r

/-- `env.cost()`: read the shared cost cell. -/
def costOf (σ : Store) (e : Environment) : Int := σ e.costRef

/-- `env.add(name, value)`: a new Environment with copied bindings maps and
the same cost reference. -/
def Environment.add (e : Environment) (name : String) (value : RuntimeValue) :
    Environment :=
  { e with env := dictInsert e.env name value }

/-- `env.set(name, value)`: `KeyError` if unbound, else a new Environment. -/
def Environment.set (e : Environment) (name : String) (value : RuntimeValue) :
    Except EvalErr Environment :=
  if ¬ dictMem e.env name then
    .error (.keyError ("Variable not found: " ++ name))
  else .ok { e with env := dictInsert e.env name value }

/-- `env.set_list_element(name, index, value)`. -/
def Environment.setListElement (e : Environment) (name : String) (index : Int)
    (value : RuntimeValue) : Except EvalErr Environment :=
  if ¬ dictMem e.env name then
    .error (.keyError ("Variable not found: " ++ name))
  else
    match dictGet e.env name with
    | some (.list cur) =>
        if index < 0 ∨ index ≥ (cur.length : Int) then
          .error (.evaluationError
            ("List index " ++ toString index ++ " out of bounds (list length: " ++
             toString cur.length ++ ")"))
        else
          match value.asScalar with
          | none => .error (.evaluationError "Cannot assign list to list element")
          | some s =>
              .ok { e with env := dictInsert e.env name (.list (cur.set index.toNat s)) }
    | _ => .error (.evaluationError ("Variable '" ++ name ++ "' is not a list"))

/-- `env.add_function(name, func_decl)` (the declaration is stored as its
`(parameters, return_type, body)` data). -/
def Environment.addFunction (e : Environment) (name : String)
    (decl : List Parameter × Ty × StmtList) : Environment :=
  { e with functions := dictInsert e.functions name decl }

/-- Python truthiness of a runtime value (`if not left: ...`). -/
def truthy : RuntimeValue → Bool
  | .int n => n ≠ 0
  | .bool b => b
  | .float q => q ≠ 0
  | .list l => !l.isEmpty

/-- A Python number as classified by the arithmetic dispatch: an `int`
(which includes `bool`, a subclass of `int`) or a `float`. -/
inductive PyNum where
  | int (n : Int)
  | float (q : ℚ)
  deriving DecidableEq, Repr

/-- `ensure_numeric(value)`: `isinstance(value, (int, float))` — `bool`
passes as an `int` (True = 1, False = 0). -/
def ensureNumeric : RuntimeValue → Except EvalErr PyNum
  | .int n => .ok (.int n)
  | .bool b => .ok (.int (if b then 1 else 0))
  | .float q => .ok (.float q)
  | .list _ => .error (.evaluationError "Expected number, got list")

def PyNum.toQ : PyNum → ℚ
  | .int n => (n : ℚ)
  | .float q => q

/-- Python `+` on numbers: `int` when both are ints, `float` otherwise. -/
def pyAdd : PyNum → PyNum → RuntimeValue
  | .int a, .int b => .int (a + b)
  | a, b => .float (a.toQ + b.toQ)

def pySub : PyNum → PyNum → RuntimeValue
  | .int a, .int b => .int (a - b)
  | a, b => .float (a.toQ - b.toQ)

def pyMul : PyNum → PyNum → RuntimeValue
  | .int a, .int b => .int (a * b)
  | a, b => .float (a.toQ * b.toQ)

/-- The division of the evaluator (after the zero check):
`left / right if isinstance(left, float) or isinstance(right, float) else
left // right` — floored integer division when both operands are ints,
true division otherwise. -/
def pyDivide : PyNum → PyNum → RuntimeValue
  | .int a, .int b => .int (Int.fdiv a b)
  | a, b => .float (a.toQ / b.toQ)

/-- Python `%` (floor-convention remainder, sign of the divisor). -/
def pyMod : PyNum → PyNum → RuntimeValue
  | .int a, .int b => .int (Int.fmod a b)
  | a, b => .float (a.toQ - b.toQ * ((a.toQ / b.toQ).floor : ℚ))

/-- The numeric value of a scalar under Python `==` (True == 1, etc.). -/
def Scalar.toQ : Scalar → ℚ
  | .int n => (n : ℚ)
  | .bool b => if b then 1 else 0
  | .float q => q

/-- Python `==` on runtime values: numeric cross-type equality on scalars,
elementwise equality on lists, `False` between a number and a list. -/
def pyEq (a b : RuntimeValue) : Bool :=
  match a, b with
  | .list l1, .list l2 =>
      l1.length = l2.length &&
        (List.zip l1 l2).all (fun p => p.1.toQ = p.2.toQ)
  | .list _, _ => false
  | _, .list _ => false
  | a, b =>
      match a.asScalar, b.asScalar with
      | some sa, some sb => sa.toQ = sb.toQ
      | _, _ => false

/-- `str(operator)` for a `BinaryOperator` member (unreachable-branch
messages). -/
def binOpPyStr : BinOp → String
  | .addition => "BinaryOperator.ADDITION"
  | .subtraction => "BinaryOperator.SUBTRACTION"
  | .multiplication => "BinaryOperator.MULTIPLICATION"
  | .division => "BinaryOperator.DIVISION"
  | .modulus => "BinaryOperator.MODULUS"
  | .lessThan => "BinaryOperator.LESS_THAN"
  | .greaterThan => "BinaryOperator.GREATER_THAN"
  | .lessThanOrEqual => "BinaryOperator.LESS_THAN_OR_EQUAL"
  | .greaterThanOrEqual => "BinaryOperator.GREATER_THAN_OR_EQUAL"
  | .equalEqual => "BinaryOperator.EQUAL_EQUAL"
  | .notEqual => "BinaryOperator.NOT_EQUAL"
  | .andOp => "BinaryOperator.AND"
  | .orOp => "BinaryOperator.OR"

/-- The result of an evaluator computation: a value or a raised exception,
together with the store (the raised case keeps the store so that a handler
— the function-call boundary catching `ReturnException` — sees the cost
increments made before the raise). -/
inductive ERes (α : Type) where
  | ok (a : α) (σ : Store)
  | err (e : EvalErr) (σ : Store)

/-- The `isinstance(idx_val, int)` test on an index value (`bool` passes,
as a subclass of `int`). -/
def idxAsInt : RuntimeValue → Option Int
  | .int n => some n
  | .bool b => some (if b then 1 else 0)
  | _ => none

/-- The non-short-circuit binary-operator dispatch of `evaluate_expression`
(reached after both operands are evaluated and the cost is incremented). -/
def applyBinary (op : BinOp) (lv rv : RuntimeValue) (σ : Store) : ERes RuntimeValue :=
  match op with
  | .addition =>
      match ensureNumeric lv with
      | .error e => .err e σ
      | .ok a =>
          match ensureNumeric rv with
          | .error e => .err e σ
          | .ok b => .ok (pyAdd a b) σ
  | .subtraction =>
      match ensureNumeric lv with
      | .error e => .err e σ
      | .ok a =>
          match ensureNumeric rv with
          | .error e => .err e σ
          | .ok b => .ok (pySub a b) σ
  | .multiplication =>
      match ensureNumeric lv with
      | .error e => .err e σ
      | .ok a =>
          match ensureNumeric rv with
          | .error e => .err e σ
          | .ok b => .ok (pyMul a b) σ
  | .division =>
      match ensureNumeric lv with
      | .error e => .err e σ
      | .ok a =>
          match ensureNumeric rv with
          | .error e => .err e σ
          | .ok b =>
              if b.toQ = 0 then .err (.evaluationError "Division by zero") σ
              else .ok (pyDivide a b) σ
  | .modulus =>
      match ensureNumeric lv with
      | .error e => .err e σ
      | .ok a =>
          match ensureNumeric rv with
          | .error e => .err e σ
          | .ok b =>
              if b.toQ = 0 then .err (.evaluationError "Modulus by zero") σ
              else .ok (pyMod a b) σ
  | .lessThan =>
      match ensureNumeric lv with
      | .error e => .err e σ
      | .ok a =>
          match ensureNumeric rv with
          | .error e => .err e σ
          | .ok b => .ok (.bool (a.toQ < b.toQ)) σ
  | .greaterThan =>
      match ensureNumeric lv with
      | .error e => .err e σ
      | .ok a =>
          match ensureNumeric rv with
          | .error e => .err e σ
          | .ok b => .ok (.bool (b.toQ < a.toQ)) σ
  | .lessThanOrEqual =>
      match ensureNumeric lv with
      | .error e => .err e σ
      | .ok a =>
          match ensureNumeric rv with
          | .error e => .err e σ
          | .ok b => .ok (.bool (a.toQ ≤ b.toQ)) σ
  | .greaterThanOrEqual =>
      match ensureNumeric lv with
      | .error e => .err e σ
      | .ok a =>
          match ensureNumeric rv with
          | .error e => .err e σ
          | .ok b => .ok (.bool (b.toQ ≤ a.toQ)) σ
  | .equalEqual => .ok (.bool (pyEq lv rv)) σ
  | .notEqual => .ok (.bool (!pyEq lv rv)) σ
  | .andOp => .err (.evaluationError ("Unknown binary operator: " ++ binOpPyStr .andOp)) σ
  | .orOp => .err (.evaluationError ("Unknown binary operator: " ++ binOpPyStr .orOp)) σ

/-- Parameter binding of `evaluate_function_call`
(`zip(func_decl.parameters, arg_vals)` stops at the shorter list). -/
def bindArgs : Environment → List Parameter → List RuntimeValue → Environment
  | e, p :: ps, v :: vs => bindArgs (e.add p.name v) ps vs
  | e, _, _ => e

/-- The optional per-statement result of `execute_statement`
(`Optional[RuntimeValue | list[RuntimeValue]]`): the value of a `print`, or
the list of results collected by an `if`/`while` body.  A `.val` holding a
`.list` and a `.collected` list are indistinguishable to the dynamic
`isinstance(r, list)` test of the collection loop — both are extended
elementwise. -/
inductive PyRes where
  | val (v : RuntimeValue)
  | collected (l : List RuntimeValue)
  deriving DecidableEq, Repr

/-- The collection step of the statement loops (`if isinstance(r, list):
results.extend(r) elif r is not None: results.append(r)`), prepended to the
results of the remaining statements. -/
def collectPrepend (r : Option PyRes) (rest : List RuntimeValue) : List RuntimeValue :=
  match r with
  | none => rest
  | some (.val (.list l)) => l.map Scalar.toRV ++ rest
  | some (.val v) => v :: rest
  | some (.collected l) => l ++ rest

/-- The record of mutually recursive evaluator functions. -/
structure Interp where
  evalExpr : Store → Environment → Expr → ERes RuntimeValue
  evalArgs : Store → Environment → ExprList → ERes (List RuntimeValue)
  evalElems : Store → Environment → ExprList → ERes (List Scalar)
  execStmt : Store → Environment → Stmt → ERes (Environment × Option PyRes)
  execStmts : Store → Environment → StmtList → ERes (Environment × List RuntimeValue)
  execBody : Store → Environment → StmtList → ERes Environment
  execWhile : Store → Environment → Expr → StmtList → List RuntimeValue →
    ERes (Environment × List RuntimeValue)

/-- The expression evaluator (`evaluate_expression`), one level. -/
def evalExprF (prev : Interp) (σ : Store) (env : Environment) : Expr → ERes RuntimeValue
  | .integerLiteral n => .ok (.int n) σ
  | .booleanLiteral b => .ok (.bool b) σ
  | .floatLiteral q => .ok (.float q) σ
  | .variable name =>
      -- cost += 1, then look up (KeyError becomes "Undefined variable")
      let σ₁ := incrementCost σ env
      match dictGet env.env name with
      | none => .err (.evaluationError ("Undefined variable: " ++ name)) σ₁
      | some v => .ok v σ₁
  | .unary _ operand =>
      -- the only unary operator is NOT; `not x` is Python truthiness negation
      match prev.evalExpr σ env operand with
      | .err e σ' => .err e σ'
      | .ok v σ' => .ok (.bool (!truthy v)) (incrementCost σ' env)
  | .binary l op r =>
      match prev.evalExpr σ env l with
      | .err e σ₁ => .err e σ₁
      | .ok lv σ₁ =>
          match op with
          | .andOp =>
              if !truthy lv then .ok (.bool false) (incrementCost σ₁ env)
              else
                match prev.evalExpr σ₁ env r with
                | .err e σ₂ => .err e σ₂
                | .ok rv σ₂ =>
                    -- `left and right` with truthy left evaluates to right
                    .ok rv (incrementCost σ₂ env)
          | .orOp =>
              if truthy lv then .ok (.bool true) (incrementCost σ₁ env)
              else
                match prev.evalExpr σ₁ env r with
                | .err e σ₂ => .err e σ₂
                | .ok rv σ₂ =>
                    -- `left or right` with falsy left evaluates to right
                    .ok rv (incrementCost σ₂ env)
          | _ =>
              match prev.evalExpr σ₁ env r with
              | .err e σ₂ => .err e σ₂
              | .ok rv σ₂ => applyBinary op lv rv (incrementCost σ₂ env)
  | .call fname args =>
      match dictGet env.functions fname with
      | none => .err (.evaluationError ("Undefined function: " ++ fname)) σ
      | some decl =>
          match prev.evalArgs σ env args with
          | .err e σ₁ => .err e σ₁
          | .ok vals σ₁ =>
              -- count the call itself
              let σ₂ := incrementCost σ₁ env
              -- child environment: fresh bindings, copied function table,
              -- shared cost reference
              let funcEnv :=
                bindArgs ⟨[], env.functions, env.costRef⟩ decl.1 vals
              match prev.execBody σ₂ funcEnv decl.2.2 with
              | .ok _ σ₃ =>
                  .err (.evaluationError
                    ("Function '" ++ fname ++ "' did not return a value")) σ₃
              | .err (.returnSignal v) σ₃ => .ok v σ₃
              | .err e σ₃ => .err e σ₃
  | .listLiteral elems =>
      let σ₁ := incrementCost σ env
      match prev.evalElems σ₁ env elems with
      | .err e σ' => .err e σ'
      | .ok ss σ' => .ok (.list ss) σ'
  | .listAccess le idx =>
      match prev.evalExpr σ env le with
      | .err e σ₁ => .err e σ₁
      | .ok lv σ₁ =>
          match prev.evalExpr σ₁ env idx with
          | .err e σ₂ => .err e σ₂
          | .ok iv σ₂ =>
              match lv with
              | .list l =>
                  match idxAsInt iv with
                  | none => .err (.evaluationError "List index must be integer") σ₂
                  | some i =>
                      if i < 0 ∨ i ≥ (l.length : Int) then
                        .err (.evaluationError
                          ("List index " ++ toString i ++ " out of bounds (length " ++
                           toString l.length ++ ")")) σ₂
                      else
                        .ok ((l.getD i.toNat (.int 0)).toRV) (incrementCost σ₂ env)
              | _ => .err (.evaluationError "Cannot index into non-list value") σ₂
  | .repeatCall v cnt =>
      match prev.evalExpr σ env v with
      | .err e σ₁ => .err e σ₁
      | .ok rv σ₁ =>
          match prev.evalExpr σ₁ env cnt with
          | .err e σ₂ => .err e σ₂
          | .ok cv σ₂ =>
              match idxAsInt cv with
              | none => .err (.evaluationError "Repeat count must be integer") σ₂
              | some c =>
                  if c < 0 then
                    .err (.evaluationError "Repeat count cannot be negative") σ₂
                  else
                    match rv.asScalar with
                    | none =>
                        .err (.evaluationError
                          ("Repeat value must be int, bool, or float, got " ++
                           pyTypeName rv)) σ₂
                    | some s =>
                        .ok (.list (List.replicate c.toNat s)) (incrementCost σ₂ env)
  | .lenCall le =>
      match prev.evalExpr σ env le with
      | .err e σ₁ => .err e σ₁
      | .ok v σ₁ =>
          match v with
          | .list l => .ok (.int (l.length : Int)) (incrementCost σ₁ env)
          | _ => .err (.evaluationError ("Expected list, got " ++ pyTypeName v)) σ₁

/-- The statement executor (`execute_statement`), one level. -/
def execStmtF (prev : Interp) (σ : Store) (env : Environment) :
    Stmt → ERes (Environment × Option PyRes)
  | .letS name _ expr =>
      if dictMem env.env name then
        .err (.evaluationError ("Variable already bound: " ++ name)) σ
      else
        match prev.evalExpr σ env expr with
        | .err e σ' => .err e σ'
        | .ok v σ' =>
            let env' := env.add name v
            .ok (env', none) (incrementCost σ' env')
  | .printS expr =>
      match prev.evalExpr σ env expr with
      | .err e σ' => .err e σ'
      | .ok v σ' => .ok (env, some (.val v)) (incrementCost σ' env)
  | .setS name expr =>
      if ¬ dictMem env.env name then
        .err (.evaluationError ("Cannot set undefined variable: " ++ name)) σ
      else
        match prev.evalExpr σ env expr with
        | .err e σ' => .err e σ'
        | .ok v σ' =>
            match env.set name v with
            | .error e => .err e σ'
            | .ok env' => .ok (env', none) (incrementCost σ' env')
  | .listAssignment lname idx valE =>
      if ¬ dictMem env.env lname then
        .err (.evaluationError ("Cannot set undefined variable: " ++ lname)) σ
      else
        match prev.evalExpr σ env idx with
        | .err e σ₁ => .err e σ₁
        | .ok iv σ₁ =>
            match idxAsInt iv with
            | none => .err (.evaluationError "List index must be integer") σ₁
            | some i =>
                match prev.evalExpr σ₁ env valE with
                | .err e σ₂ => .err e σ₂
                | .ok ev σ₂ =>
                    match env.setListElement lname i ev with
                    | .error e => .err e σ₂
                    | .ok env' => .ok (env', none) (incrementCost σ₂ env')
  | .ifS cond body =>
      match prev.evalExpr σ env cond with
      | .err e σ₁ => .err e σ₁
      | .ok cv σ₁ =>
          match cv with
          | .bool b =>
              let σ₂ := incrementCost σ₁ env
              if b then
                match prev.execStmts σ₂ env body with
                | .err e σ₃ => .err e σ₃
                | .ok (env', results) σ₃ =>
                    .ok (env',
                      if results.isEmpty then none else some (.collected results)) σ₃
              else .ok (env, none) σ₂
          | _ => .err (.evaluationError "If condition must be boolean") σ₁
  | .whileS cond body =>
      match prev.execWhile σ env cond body [] with
      | .err e σ' => .err e σ'
      | .ok (env', results) σ' =>
          .ok (env', if results.isEmpty then none else some (.collected results)) σ'
  | .comment => .ok (env, none) σ
  | .functionDeclaration fname params rt body =>
      if dictMem env.functions fname then
        .err (.evaluationError ("Function already declared: " ++ fname)) σ
      else .ok (env.addFunction fname (params, rt, body), none) σ
  | .returnS expr =>
      match prev.evalExpr σ env expr with
      | .err e σ' => .err e σ'
      | .ok v σ' => .err (.returnSignal v) σ'

/-- Build the level-`fuel+1` evaluator record from the level-`fuel` one. -/
def mkInterp (prev : Interp) : Interp where
  evalExpr := fun σ env e => evalExprF prev σ env e
  evalArgs := fun σ env args =>
    match args with
    | .nil => .ok [] σ
    | .cons a rest =>
        match prev.evalExpr σ env a with
        | .err e σ' => .err e σ'
        | .ok v σ' =>
            match prev.evalArgs σ' env rest with
            | .err e σ'' => .err e σ''
            | .ok vs σ'' => .ok (v :: vs) σ''
  evalElems := fun σ env elems =>
    match elems with
    | .nil => .ok [] σ
    | .cons el rest =>
        match prev.evalExpr σ env el with
        | .err e σ' => .err e σ'
        | .ok v σ' =>
            match v.asScalar with
            | none =>
                .err (.evaluationError
                  ("List elements must be int, bool, or float, got " ++ pyTypeName v)) σ'
            | some s =>
                match prev.evalElems σ' env rest with
                | .err e σ'' => .err e σ''
                | .ok ss σ'' => .ok (s :: ss) σ''
  execStmt := fun σ env s => execStmtF prev σ env s
  execStmts := fun σ env l =>
    match l with
    | .nil => .ok (env, []) σ
    | .cons s rest =>
        match prev.execStmt σ env s with
        | .err e σ' => .err e σ'
        | .ok (env', r) σ' =>
            match prev.execStmts σ' env' rest with
            | .err e σ'' => .err e σ''
            | .ok (env'', results) σ'' => .ok (env'', collectPrepend r results) σ''
  execBody := fun σ env l =>
    match l with
    | .nil => .ok env σ
    | .cons s rest =>
        match prev.execStmt σ env s with
        | .err e σ' => .err e σ'
        | .ok (env', _) σ' => prev.execBody σ' env' rest
  execWhile := fun σ env cond body acc =>
    match prev.evalExpr σ env cond with
    | .err e σ₁ => .err e σ₁
    | .ok cv σ₁ =>
        match cv with
        | .bool b =>
            let σ₂ := incrementCost σ₁ env
            if b then
              match prev.execStmts σ₂ env body with
              | .err e σ₃ => .err e σ₃
              | .ok (env', results) σ₃ =>
                  prev.execWhile σ₃ env' cond body (acc ++ results)
            else .ok (env, acc) σ₂
        | _ => .err (.evaluationError "While condition must be boolean") σ₁

/-- The level-0 evaluator record: everything is out of fuel. -/
def runFailInterp : Interp where
  evalExpr := fun σ _ _ => .err .fuelExhausted σ
  evalArgs := fun σ _ _ => .err .fuelExhausted σ
  evalElems := fun σ _ _ => .err .fuelExhausted σ
  execStmt := fun σ _ _ => .err .fuelExhausted σ
  execStmts := fun σ _ _ => .err .fuelExhausted σ
  execBody := fun σ _ _ => .err .fuelExhausted σ
  execWhile := fun σ _ _ _ _ => .err .fuelExhausted σ

/-- The fuel-indexed family of evaluator records. -/
def interpGo : Nat → Interp
  | 0 => runFailInterp
  | f + 1 => mkInterp (interpGo f)

/-- `evaluate_expression(env, expr)` at a given fuel and store. -/
def evaluateExpression (fuel : Nat) (σ : Store) (env : Environment) (e : Expr) :
    ERes RuntimeValue :=
  (interpGo fuel).evalExpr σ env e

/-- `execute_statement(env, stmt)` at a given fuel and store. -/
def executeStatement (fuel : Nat) (σ : Store) (env : Environment) (s : Stmt) :
    ERes (Environment × Option PyRes) :=
  (interpGo fuel).execStmt σ env s

/-- The statement loop of `execute` (threading the environment and
collecting per-statement results) at a given fuel and store. -/
def executeStatements (fuel : Nat) (σ : Store) (env : Environment) (l : StmtList) :
    ERes (Environment × List RuntimeValue) :=
  (interpGo fuel).execStmts σ env l

/-- One-step unfolding of `evaluateExpression` at positive fuel. -/
lemma evaluateExpression_succ (f : Nat) (σ : Store) (env : Environment) (e : Expr) :
    evaluateExpression (f + 1) σ env e = evalExprF (interpGo f) σ env e := rfl

lemma interpGo_evalExpr (f : Nat) : (interpGo f).evalExpr = evaluateExpression f := rfl

lemma interpGo_execStmt (f : Nat) : (interpGo f).execStmt = executeStatement f := rfl

lemma interpGo_execStmts (f : Nat) : (interpGo f).execStmts = executeStatements f := rfl

/-- One-step unfolding of `executeStatement` at positive fuel. -/
lemma executeStatement_succ (f : Nat) (σ : Store) (env : Environment) (s : Stmt) :
    executeStatement (f + 1) σ env s = execStmtF (interpGo f) σ env s := rfl

lemma executeStatements_succ_nil (f : Nat) (σ : Store) (env : Environment) :
    executeStatements (f + 1) σ env .nil = .ok (env, []) σ := rfl

lemma executeStatements_zero (σ : Store) (env : Environment) (l : StmtList) :
    executeStatements 0 σ env l = .err .fuelExhausted σ := rfl

/-- One-step unfolding of the statement loop on a cons cell. -/
lemma executeStatements_succ_cons (f : Nat) (σ : Store) (env : Environment)
    (s : Stmt) (rest : StmtList) :
    executeStatements (f + 1) σ env (.cons s rest) =
      (match executeStatement f σ env s with
       | .err e σ' => .err e σ'
       | .ok (env', r) σ' =>
           match executeStatements f σ' env' rest with
           | .err e σ'' => .err e σ''
           | .ok (env'', results) σ'' => .ok (env'', collectPrepend r results) σ'') := rfl

lemma eval_integerLiteral (f : Nat) (σ : Store) (env : Environment) (n : Int) :
    evaluateExpression (f + 1) σ env (.integerLiteral n) = .ok (.int n) σ := rfl

lemma eval_floatLiteral (f : Nat) (σ : Store) (env : Environment) (q : ℚ) :
    evaluateExpression (f + 1) σ env (.floatLiteral q) = .ok (.float q) σ := rfl

lemma eval_booleanLiteral (f : Nat) (σ : Store) (env : Environment) (b : Bool) :
    evaluateExpression (f + 1) σ env (.booleanLiteral b) = .ok (.bool b) σ := rfl

/-- The initial store: all cost cells read 0. -/
def sigma0 : Store := fun _ => 0

/-- The empty environment of `Environment.empty()` (cost cell 0 of the
fresh store). -/
def env0 : Environment := ⟨[], [], 0⟩

/-- `execute(ast)`: run the program from the empty environment and return
`(print_results, total_cost)`; raised exceptions (including an uncaught
`ReturnException`) propagate to the caller. -/
def execute (fuel : Nat) (ast : StmtList) : Except EvalErr (List RuntimeValue × Int) :=
  match executeStatements fuel sigma0 env0 ast with
  | .err e _ => .error e
  | .ok (env', results) σ' => .ok (results, costOf σ' env')

end Evaluator

/-! ### Dictionary lemmas -/

lemma dictGet_insert_self {α : Type} (d : List (String × α)) (k : String) (v : α) :
    dictGet (dictInsert d k v) k = some v := by
  induction d with
  | nil => simp [dictInsert, dictGet]
  | cons p rest ih =>
      obtain ⟨k', v'⟩ := p
      by_cases h : k' = k
      · subst h; simp [dictInsert, dictGet]
      · simp [dictInsert, dictGet, h, ih]

lemma dictGet_insert_ne {α : Type} (d : List (String × α)) (k m : String) (v : α)
    (h : m ≠ k) : dictGet (dictInsert d k v) m = dictGet d m := by
  have hkm : ¬ k = m := fun hh => h hh.symm
  induction d with
  | nil => simp [dictInsert, dictGet, hkm]
  | cons p rest ih =>
      obtain ⟨k', v'⟩ := p
      by_cases hk : k' = k
      · subst hk
        simp [dictInsert, dictGet, hkm]
      · by_cases hm : k' = m
        · subst hm; simp [dictInsert, dictGet, hk]
        · simp [dictInsert, dictGet, hk, hm, ih]

/-- Reading the cost cell through `e` after an increment performed through
an environment sharing `e`'s cost reference sees the increment. -/
lemma costOf_incrementCost_shared (σ : Evaluator.Store)
    (e e' : Evaluator.Environment) (h : e'.costRef = e.costRef) :
    Evaluator.costOf (Evaluator.incrementCost σ e') e = Evaluator.costOf σ e + 1 := by
  simp [Evaluator.costOf, Evaluator.incrementCost, h]

/-!  ### Claim C8 -/

/-- **C8.**  Each of `add`, `set`, `set_list_element` and `add_function`
returns a new `Environment` whose binding maps are (copies of) the old maps
with the single update applied — the bindings of `e` itself are unchanged,
as `e` is an immutable value here and the new environment's other bindings
agree with `e`'s — while the cost counter is shared by reference: the new
environment's `costRef` equals `e`'s, so a cost increment performed through
the new environment is observed through `e` as well. -/
theorem c8_environment_copy_on_write_shared_cost (σ : Evaluator.Store)
    (e : Evaluator.Environment) (n : String) (v : Evaluator.RuntimeValue)
    (fname : String) (decl : List Parameter × Ty × StmtList) :
    ((e.add n v).env = dictInsert e.env n v
      ∧ (e.add n v).functions = e.functions
      ∧ (e.add n v).costRef = e.costRef
      ∧ dictGet (e.add n v).env n = some v
      ∧ (∀ m, m ≠ n → dictGet (e.add n v).env m = dictGet e.env m)
      ∧ Evaluator.costOf (Evaluator.incrementCost σ (e.add n v)) e
          = Evaluator.costOf σ e + 1)
    ∧ (∀ e', e.set n v = .ok e' →
        e'.env = dictInsert e.env n v
        ∧ e'.functions = e.functions
        ∧ e'.costRef = e.costRef
        ∧ Evaluator.costOf (Evaluator.incrementCost σ e') e
            = Evaluator.costOf σ e + 1)
    ∧ (∀ (i : Int) e', e.setListElement n i v = .ok e' →
        e'.functions = e.functions
        ∧ e'.costRef = e.costRef
        ∧ Evaluator.costOf (Evaluator.incrementCost σ e') e
            = Evaluator.costOf σ e + 1)
    ∧ ((e.addFunction fname decl).env = e.env
      ∧ (e.addFunction fname decl).functions = dictInsert e.functions fname decl
      ∧ (e.addFunction fname decl).costRef = e.costRef
      ∧ Evaluator.costOf (Evaluator.incrementCost σ (e.addFunction fname decl)) e
          = Evaluator.costOf σ e + 1) := by
  refine ⟨⟨rfl, rfl, rfl, ?_, ?_, ?_⟩, ?_, ?_, ⟨rfl, rfl, rfl, ?_⟩⟩
  · exact dictGet_insert_self e.env n v
  · intro m hm
    exact dictGet_insert_ne e.env n m v hm
  · exact costOf_incrementCost_shared σ e (e.add n v) rfl
  · intro e' h
    unfold Evaluator.Environment.set at h
    split at h
    · cases h
    · cases h
      exact ⟨rfl, rfl, rfl, costOf_incrementCost_shared σ e _ rfl⟩
  · intro i e' h
    unfold Evaluator.Environment.setListElement at h
    split at h
    · cases h
    · split at h
      · split at h
        · cases h
        · split at h
          · cases h
          · cases h
            exact ⟨rfl, rfl, costOf_incrementCost_shared σ e _ rfl⟩
      · cases h
  · exact costOf_incrementCost_shared σ e (e.addFunction fname decl) rfl

/-- Witness for C8: a concrete environment with a scalar and a list
binding; every hypothesis of the theorem's conditional conjuncts is
discharged at it. -/
theorem c8_environment_copy_on_write_shared_cost_witness :
    ((⟨[("y", .int 1)], [], 0⟩ : Evaluator.Environment).set "y" (.int 2)
        = .ok ⟨[("y", .int 2)], [], 0⟩)
    ∧ (⟨[("y", Evaluator.RuntimeValue.int 2)], [], 0⟩ : Evaluator.Environment).costRef
        = (⟨[("y", .int 1)], [], 0⟩ : Evaluator.Environment).costRef
    ∧ Evaluator.costOf
        (Evaluator.incrementCost Evaluator.sigma0
          (⟨[("y", .int 2)], [], 0⟩ : Evaluator.Environment))
        (⟨[("y", .int 1)], [], 0⟩ : Evaluator.Environment)
      = Evaluator.costOf Evaluator.sigma0
          (⟨[("y", .int 1)], [], 0⟩ : Evaluator.Environment) + 1 := by
  have h := (c8_environment_copy_on_write_shared_cost Evaluator.sigma0
    ⟨[("y", .int 1)], [], 0⟩ "y" (.int 2) "f" ([], .base .integer, .nil)).2.1
    ⟨[("y", .int 2)], [], 0⟩ (by decide)
  exact ⟨by decide, h.2.2.1, h.2.2.2⟩

/-!  ### Claim C6 -/

/-- **C6.**  For `a and b`: if the left operand evaluates falsy, the result
is `False`, the right operand is not evaluated (the result is the same for
every `b`, and the store is the one after `a` plus the operator's single
increment), and the cost counter increases by exactly 1 for the operator;
otherwise the right operand is evaluated and the operator adds exactly 1
(the Python value `left and right` is then the right operand's value).
Symmetrically, `a or b` short-circuits to `True` with cost 1 for the
operator when the left operand is truthy. -/
theorem c6_short_circuit_and_or (fuel : Nat) (σ σ₁ : Evaluator.Store)
    (env : Evaluator.Environment) (a b : Expr) (va : Evaluator.RuntimeValue) :
    (Evaluator.evaluateExpression fuel σ env a = .ok va σ₁ →
      Evaluator.truthy va = false →
      Evaluator.evaluateExpression (fuel + 1) σ env (.binary a .andOp b)
        = .ok (.bool false) (Evaluator.incrementCost σ₁ env)
      ∧ Evaluator.costOf (Evaluator.incrementCost σ₁ env) env
          = Evaluator.costOf σ₁ env + 1)
    ∧ (Evaluator.evaluateExpression fuel σ env a = .ok va σ₁ →
      Evaluator.truthy va = true →
      ∀ (vb : Evaluator.RuntimeValue) (σ₂ : Evaluator.Store),
        Evaluator.evaluateExpression fuel σ₁ env b = .ok vb σ₂ →
        Evaluator.evaluateExpression (fuel + 1) σ env (.binary a .andOp b)
          = .ok vb (Evaluator.incrementCost σ₂ env)
        ∧ Evaluator.costOf (Evaluator.incrementCost σ₂ env) env
            = Evaluator.costOf σ₂ env + 1)
    ∧ (Evaluator.evaluateExpression fuel σ env a = .ok va σ₁ →
      Evaluator.truthy va = true →
      Evaluator.evaluateExpression (fuel + 1) σ env (.binary a .orOp b)
        = .ok (.bool true) (Evaluator.incrementCost σ₁ env)
      ∧ Evaluator.costOf (Evaluator.incrementCost σ₁ env) env
          = Evaluator.costOf σ₁ env + 1)
    ∧ (Evaluator.evaluateExpression fuel σ env a = .ok va σ₁ →
      Evaluator.truthy va = false →
      ∀ (vb : Evaluator.RuntimeValue) (σ₂ : Evaluator.Store),
        Evaluator.evaluateExpression fuel σ₁ env b = .ok vb σ₂ →
        Evaluator.evaluateExpression (fuel + 1) σ env (.binary a .orOp b)
          = .ok vb (Evaluator.incrementCost σ₂ env)) := by
  refine ⟨?_, ?_, ?_, ?_⟩
  · intro ha hf
    simp only [Evaluator.evaluateExpression] at ha ⊢
    simp only [Evaluator.interpGo, Evaluator.mkInterp, Evaluator.evalExprF]
    rw [ha]
    simp only [hf, Bool.not_false, if_pos]
    exact ⟨by trivial, costOf_incrementCost_shared σ₁ env env rfl⟩
  · intro ha ht vb σ₂ hb
    simp only [Evaluator.evaluateExpression] at ha hb ⊢
    simp only [Evaluator.interpGo, Evaluator.mkInterp, Evaluator.evalExprF]
    rw [ha]
    simp only [ht, Bool.not_true, Bool.false_eq_true, if_false]
    rw [hb]
    exact ⟨rfl, costOf_incrementCost_shared σ₂ env env rfl⟩
  · intro ha ht
    simp only [Evaluator.evaluateExpression] at ha ⊢
    simp only [Evaluator.interpGo, Evaluator.mkInterp, Evaluator.evalExprF]
    rw [ha]
    simp only [ht, if_pos]
    exact ⟨by trivial, costOf_incrementCost_shared σ₁ env env rfl⟩
  · intro ha hf vb σ₂ hb
    simp only [Evaluator.evaluateExpression] at ha hb ⊢
    simp only [Evaluator.interpGo, Evaluator.mkInterp, Evaluator.evalExprF]
    rw [ha]
    simp only [hf, Bool.false_eq_true, if_false]
    rw [hb]

/-- Witness for C6: `0 and b` short-circuits (`0` is falsy), `true and 5`
evaluates the right operand. -/
theorem c6_short_circuit_and_or_witness :
    (Evaluator.evaluateExpression 2 Evaluator.sigma0 Evaluator.env0
        (.binary (.integerLiteral 0) .andOp (.integerLiteral 7))
      = .ok (.bool false) (Evaluator.incrementCost Evaluator.sigma0 Evaluator.env0)
      ∧ Evaluator.costOf (Evaluator.incrementCost Evaluator.sigma0 Evaluator.env0)
          Evaluator.env0
        = Evaluator.costOf Evaluator.sigma0 Evaluator.env0 + 1)
    ∧ (Evaluator.evaluateExpression 2 Evaluator.sigma0 Evaluator.env0
        (.binary (.booleanLiteral true) .andOp (.integerLiteral 5))
      = .ok (.int 5) (Evaluator.incrementCost Evaluator.sigma0 Evaluator.env0)
      ∧ Evaluator.costOf (Evaluator.incrementCost Evaluator.sigma0 Evaluator.env0)
          Evaluator.env0
        = Evaluator.costOf Evaluator.sigma0 Evaluator.env0 + 1) :=
  ⟨(c6_short_circuit_and_or 1 Evaluator.sigma0 Evaluator.sigma0 Evaluator.env0
      (.integerLiteral 0) (.integerLiteral 7) (.int 0)).1 rfl (by decide),
   (c6_short_circuit_and_or 1 Evaluator.sigma0 Evaluator.sigma0 Evaluator.env0
      (.booleanLiteral true) (.integerLiteral 5) (.bool true)).2.1 rfl (by decide)
      (.int 5) Evaluator.sigma0 rfl⟩

/-!  ### Claim C5 -/

/-- **C5.**  Statically, the result type of an arithmetic operation on
numeric operands is `Float` iff at least one operand's static type is
`Float`, and `Integer` otherwise.  At runtime, dividing two integers yields
the floored integer quotient (an `int` value, never a `float`); dividing
with at least one float operand yields true division (a `float` value); and
division or modulus with a zero right operand raises `EvaluationError`. -/
theorem c5_arithmetic_promotion_and_division (fuel : Nat) (σ : Evaluator.Store)
    (env : Evaluator.Environment) (t1 t2 : Ty) (op : BinOp)
    (ia ib : Int) (qa qb : ℚ) :
    (TypeChecker.isArithmeticOp op = true →
      TypeChecker.isNumericTy t1 = true → TypeChecker.isNumericTy t2 = true →
      (TypeChecker.checkBinaryOpTypes t1 t2 op = .ok (.base .float)
        ↔ (t1 = .base .float ∨ t2 = .base .float))
      ∧ (TypeChecker.checkBinaryOpTypes t1 t2 op = .ok (.base .integer)
        ↔ ¬ (t1 = .base .float ∨ t2 = .base .float)))
    ∧ (ib ≠ 0 →
      Evaluator.evaluateExpression (fuel + 2) σ env
          (.binary (.integerLiteral ia) .division (.integerLiteral ib))
        = .ok (.int (Int.fdiv ia ib)) (Evaluator.incrementCost σ env))
    ∧ (Evaluator.evaluateExpression (fuel + 2) σ env
          (.binary (.integerLiteral ia) .division (.integerLiteral 0))
        = .err (.evaluationError "Division by zero") (Evaluator.incrementCost σ env))
    ∧ (ib ≠ 0 →
      Evaluator.evaluateExpression (fuel + 2) σ env
          (.binary (.floatLiteral qa) .division (.integerLiteral ib))
        = .ok (.float (qa / (ib : ℚ))) (Evaluator.incrementCost σ env))
    ∧ (qb ≠ 0 →
      Evaluator.evaluateExpression (fuel + 2) σ env
          (.binary (.integerLiteral ia) .division (.floatLiteral qb))
        = .ok (.float ((ia : ℚ) / qb)) (Evaluator.incrementCost σ env))
    ∧ (qb ≠ 0 →
      Evaluator.evaluateExpression (fuel + 2) σ env
          (.binary (.floatLiteral qa) .division (.floatLiteral qb))
        = .ok (.float (qa / qb)) (Evaluator.incrementCost σ env))
    ∧ (Evaluator.evaluateExpression (fuel + 2) σ env
          (.binary (.integerLiteral ia) .modulus (.integerLiteral 0))
        = .err (.evaluationError "Modulus by zero") (Evaluator.incrementCost σ env))
    ∧ (ib ≠ 0 →
      Evaluator.evaluateExpression (fuel + 2) σ env
          (.binary (.integerLiteral ia) .modulus (.integerLiteral ib))
        = .ok (.int (Int.fmod ia ib)) (Evaluator.incrementCost σ env)) := by
  have hdiv : ∀ (l r : Expr) (op2 : BinOp),
      (op2 = .division ∨ op2 = .modulus) →
      Evaluator.evaluateExpression (fuel + 2) σ env (.binary l op2 r)
        = (match Evaluator.evaluateExpression (fuel + 1) σ env l with
           | .err e σ₁ => .err e σ₁
           | .ok lv σ₁ =>
               match Evaluator.evaluateExpression (fuel + 1) σ₁ env r with
               | .err e σ₂ => .err e σ₂
               | .ok rv σ₂ =>
                   Evaluator.applyBinary op2 lv rv (Evaluator.incrementCost σ₂ env)) := by
    intro l r op2 hop2
    rw [Evaluator.evaluateExpression_succ]
    rcases hop2 with h | h <;> subst h <;>
      simp only [Evaluator.evalExprF, Evaluator.interpGo_evalExpr]
  refine ⟨?_, ?_, ?_, ?_, ?_, ?_, ?_, ?_⟩
  · intro hop h1 h2
    have hval : TypeChecker.validateNumericOperands t1 t2 op = .ok () := by
      unfold TypeChecker.validateNumericOperands
      simp [h1, h2]
    have hcomp : TypeChecker.checkBinaryOpTypes t1 t2 op
        = (if t1 = .base .float ∨ t2 = .base .float
            then .ok (.base .float) else .ok (.base .integer)) := by
      unfold TypeChecker.checkBinaryOpTypes
      rw [if_pos hop]
      unfold TypeChecker.checkArithmeticOperation
      rw [hval]
    by_cases hf : t1 = .base .float ∨ t2 = .base .float
    · rw [if_pos hf] at hcomp
      exact ⟨by simp [hcomp, hf], by simp [hcomp, hf]⟩
    · rw [if_neg hf] at hcomp
      exact ⟨by simp [hcomp, hf], by simp [hcomp, hf]⟩
  · intro hb
    rw [hdiv _ _ _ (Or.inl rfl)]
    simp only [Evaluator.eval_integerLiteral, Evaluator.eval_floatLiteral]
    simp only [Evaluator.applyBinary, Evaluator.ensureNumeric, Evaluator.PyNum.toQ,
      Evaluator.pyDivide]
    rw [if_neg (by exact_mod_cast hb)]
  · rw [hdiv _ _ _ (Or.inl rfl)]
    simp only [Evaluator.eval_integerLiteral, Evaluator.eval_floatLiteral]
    simp [Evaluator.applyBinary, Evaluator.ensureNumeric, Evaluator.PyNum.toQ]
  · intro hb
    rw [hdiv _ _ _ (Or.inl rfl)]
    simp only [Evaluator.eval_integerLiteral, Evaluator.eval_floatLiteral]
    simp only [Evaluator.applyBinary, Evaluator.ensureNumeric, Evaluator.PyNum.toQ,
      Evaluator.pyDivide]
    rw [if_neg (by exact_mod_cast hb)]
  · intro hb
    rw [hdiv _ _ _ (Or.inl rfl)]
    simp only [Evaluator.eval_integerLiteral, Evaluator.eval_floatLiteral]
    simp only [Evaluator.applyBinary, Evaluator.ensureNumeric, Evaluator.PyNum.toQ,
      Evaluator.pyDivide]
    rw [if_neg hb]
  · intro hb
    rw [hdiv _ _ _ (Or.inl rfl)]
    simp only [Evaluator.eval_integerLiteral, Evaluator.eval_floatLiteral]
    simp only [Evaluator.applyBinary, Evaluator.ensureNumeric, Evaluator.PyNum.toQ,
      Evaluator.pyDivide]
    rw [if_neg hb]
  · rw [hdiv _ _ _ (Or.inr rfl)]
    simp only [Evaluator.eval_integerLiteral, Evaluator.eval_floatLiteral]
    simp [Evaluator.applyBinary, Evaluator.ensureNumeric, Evaluator.PyNum.toQ]
  · intro hb
    rw [hdiv _ _ _ (Or.inr rfl)]
    simp only [Evaluator.eval_integerLiteral, Evaluator.eval_floatLiteral]
    simp only [Evaluator.applyBinary, Evaluator.ensureNumeric, Evaluator.PyNum.toQ,
      Evaluator.pyMod]
    rw [if_neg (by exact_mod_cast hb)]

/-- Witness for C5: `Integer + Float` has static type `Float`;
`(-7) / 2 = -4` at runtime; `6.0 / 2` is true division. -/
theorem c5_arithmetic_promotion_and_division_witness :
    ((TypeChecker.checkBinaryOpTypes (.base .integer) (.base .float) .addition
        = .ok (.base .float)
      ↔ ((Ty.base .integer) = .base .float ∨ (Ty.base .float) = .base .float))
      ∧ (TypeChecker.checkBinaryOpTypes (.base .integer) (.base .float) .addition
          = .ok (.base .integer)
        ↔ ¬ ((Ty.base .integer) = .base .float ∨ (Ty.base .float) = .base .float)))
    ∧ Evaluator.evaluateExpression 3 Evaluator.sigma0 Evaluator.env0
        (.binary (.integerLiteral (-7)) .division (.integerLiteral 2))
      = .ok (.int (Int.fdiv (-7) 2)) (Evaluator.incrementCost Evaluator.sigma0 Evaluator.env0)
    ∧ Evaluator.evaluateExpression 3 Evaluator.sigma0 Evaluator.env0
        (.binary (.floatLiteral 6) .division (.integerLiteral 2))
      = .ok (.float ((6 : ℚ) / ((2 : Int) : ℚ)))
          (Evaluator.incrementCost Evaluator.sigma0 Evaluator.env0) :=
  ⟨(c5_arithmetic_promotion_and_division 1 Evaluator.sigma0 Evaluator.env0
      (.base .integer) (.base .float) .addition 0 0 0 0).1 (by decide) (by decide) (by decide),
   (c5_arithmetic_promotion_and_division 1 Evaluator.sigma0 Evaluator.env0
      (.base .integer) (.base .float) .addition (-7) 2 0 0).2.1 (by decide),
   (c5_arithmetic_promotion_and_division 1 Evaluator.sigma0 Evaluator.env0
      (.base .integer) (.base .float) .addition 0 2 6 0).2.2.2.1 (by decide)⟩

/-! ### Statement-sequence composition -/

/-- Collecting into a longer suffix splits as an append. -/
lemma collectPrepend_append (r : Option Evaluator.PyRes)
    (xs ys : List Evaluator.RuntimeValue) :
    Evaluator.collectPrepend r (xs ++ ys) = Evaluator.collectPrepend r xs ++ ys := by
  match r with
  | none => rfl
  | some (.collected l) => simp [Evaluator.collectPrepend]
  | some (.val (.int n)) => rfl
  | some (.val (.bool b)) => rfl
  | some (.val (.float q)) => rfl
  | some (.val (.list l)) => simp [Evaluator.collectPrepend]

/-- If the statement loop runs a prefix successfully, running the prefix
followed by more statements continues with the remaining fuel from the
prefix's final environment and store. -/
lemma executeStatements_append :
    ∀ (fuel : Nat) (pre post : StmtList) (σ : Evaluator.Store)
      (env env' : Evaluator.Environment) (res : List Evaluator.RuntimeValue)
      (σ' : Evaluator.Store),
      Evaluator.executeStatements fuel σ env pre = .ok (env', res) σ' →
      Evaluator.executeStatements fuel σ env (pre.append post) =
        (match Evaluator.executeStatements (fuel - pre.length) σ' env' post with
         | .ok (env₂, res₂) σ₂ => .ok (env₂, res ++ res₂) σ₂
         | .err e σₑ => .err e σₑ) := by
  intro fuel
  induction fuel with
  | zero =>
      intro pre post σ env env' res σ' h
      rw [Evaluator.executeStatements_zero] at h
      cases h
  | succ g ih =>
      intro pre post σ env env' res σ' h
      cases pre with
      | nil =>
          rw [Evaluator.executeStatements_succ_nil] at h
          cases h
          simp only [StmtList.append, StmtList.length, Nat.sub_zero]
          rcases hp : Evaluator.executeStatements (g + 1) σ env post with ⟨p, σ₂⟩ | ⟨e, σₑ⟩
          · obtain ⟨env₂, res₂⟩ := p
            simp
          · simp
      | cons s rest =>
          rw [Evaluator.executeStatements_succ_cons] at h
          simp only [StmtList.append]
          rw [Evaluator.executeStatements_succ_cons]
          rcases hs : Evaluator.executeStatement g σ env s with ⟨p, σ₁⟩ | ⟨e, σ₁⟩
          · obtain ⟨env₁, r⟩ := p
            rw [hs] at h
            simp only at h
            simp only
            rcases hrest : Evaluator.executeStatements g σ₁ env₁ rest with ⟨p2, σ₂⟩ | ⟨e2, σ₂⟩
            · obtain ⟨env₂, res₂⟩ := p2
              rw [hrest] at h
              simp only at h
              cases h
              have hlen : g + 1 - StmtList.length (.cons s rest) = g - rest.length := by
                simp [StmtList.length]; omega
              rw [hlen]
              have hih := ih rest post σ₁ env₁ env' res₂ σ' hrest
              rw [hih]
              rcases hp : Evaluator.executeStatements (g - rest.length) σ' env' post
                with ⟨p3, σ₃⟩ | ⟨e3, σ₃⟩
              · obtain ⟨env₃, res₃⟩ := p3
                simp [collectPrepend_append]
              · simp
            · rw [hrest] at h
              simp only at h
              cases h
          · rw [hs] at h
            simp only at h
            cases h

/-!  ### Claim C10 -/

/-- **C10.**  When a `Return` statement is executed at the top level
(outside any function call) and its expression evaluates to a value `v`,
`execute` neither returns normally nor raises an `EvaluationError`: the
internal return signal (`ReturnException`) carrying `v` propagates uncaught
out of `execute`. -/
theorem c10_top_level_return_propagates (pre post : StmtList) (e : Expr) (g : Nat)
    (env : Evaluator.Environment) (res : List Evaluator.RuntimeValue)
    (σ σ' : Evaluator.Store) (v : Evaluator.RuntimeValue)
    (hpre : Evaluator.executeStatements (pre.length + (g + 2)) Evaluator.sigma0
      Evaluator.env0 pre = .ok (env, res) σ)
    (he : Evaluator.evaluateExpression g σ env e = .ok v σ') :
    Evaluator.execute (pre.length + (g + 2)) (pre.append (.cons (.returnS e) post))
      = .error (.returnSignal v)
    ∧ (∀ out, Evaluator.execute (pre.length + (g + 2))
        (pre.append (.cons (.returnS e) post)) ≠ .ok out)
    ∧ (∀ msg, Evaluator.execute (pre.length + (g + 2))
        (pre.append (.cons (.returnS e) post)) ≠ .error (.evaluationError msg)) := by
  have happ := executeStatements_append (pre.length + (g + 2)) pre
    (.cons (.returnS e) post) Evaluator.sigma0 Evaluator.env0 env res σ hpre
  have hlen : pre.length + (g + 2) - pre.length = g + 2 := by omega
  rw [hlen] at happ
  have hret : Evaluator.executeStatements (g + 2) σ env (.cons (.returnS e) post)
      = .err (.returnSignal v) σ' := by
    rw [Evaluator.executeStatements_succ_cons, Evaluator.executeStatement_succ]
    simp only [Evaluator.execStmtF, Evaluator.interpGo_evalExpr]
    rw [he]
  rw [hret] at happ
  simp only at happ
  have hexec : Evaluator.execute (pre.length + (g + 2))
      (pre.append (.cons (.returnS e) post)) = .error (.returnSignal v) := by
    unfold Evaluator.execute
    rw [happ]
  refine ⟨hexec, ?_, ?_⟩
  · intro out hh
    rw [hexec] at hh
    cases hh
  · intro msg hh
    rw [hexec] at hh
    cases hh

/-- Witness for C10: the one-statement program `return 7`. -/
theorem c10_top_level_return_propagates_witness :
    Evaluator.execute (StmtList.nil.length + (1 + 2))
      (StmtList.nil.append (.cons (.returnS (.integerLiteral 7)) .nil))
      = .error (.returnSignal (.int 7)) :=
  (c10_top_level_return_propagates .nil .nil (.integerLiteral 7) 1
    Evaluator.env0 [] Evaluator.sigma0 Evaluator.sigma0 (.int 7) rfl rfl).1

/-!  ### Claim C4 -/

/-- What one executed `print` contributes to `print_results`: the value
itself for a scalar, the elements individually for a list (nothing for an
empty list) — the behaviour of the `isinstance(r, list)` collection step on
a printed value. -/
def pyFlatten (v : Evaluator.RuntimeValue) : List Evaluator.RuntimeValue :=
  match v with
  | .list l => l.map Evaluator.Scalar.toRV
  | v => [v]

/-- **C4 counterexample.**  The claim says each executed print contributes
exactly one element to `print_results` (a printed list contributing the
list itself as a single element).  The program `print [1, 2]` executes a
single print statement, yet `execute` returns `print_results` with two
elements, `1` and `2` — not one element holding the list. -/
theorem c4_print_of_list_flattens :
    Evaluator.execute 50
      (.cons (.printS (.listLiteral
        (.cons (.integerLiteral 1) (.cons (.integerLiteral 2) .nil)))) .nil)
      = .ok ([.int 1, .int 2], 2)
    ∧ (∀ l : List Evaluator.Scalar,
        ([Evaluator.RuntimeValue.int 1, .int 2] : List Evaluator.RuntimeValue)
          ≠ [Evaluator.RuntimeValue.list l]) := by
  refine ⟨by decide, ?_⟩
  intro l h
  simp at h

/-- **C4 (amended).**  For each executed print statement, `print_results`
receives the evaluated value as one element when that value is not a list;
a printed list contributes its elements individually (a printed empty list
contributes nothing), and the print adds exactly 1 to the cost. -/
theorem c4_print_results_flatten_lists (pre : StmtList) (e : Expr) (g : Nat)
    (env : Evaluator.Environment) (res : List Evaluator.RuntimeValue)
    (σ σ' : Evaluator.Store) (v : Evaluator.RuntimeValue)
    (hpre : Evaluator.executeStatements (pre.length + (g + 2)) Evaluator.sigma0
      Evaluator.env0 pre = .ok (env, res) σ)
    (he : Evaluator.evaluateExpression g σ env e = .ok v σ') :
    Evaluator.execute (pre.length + (g + 2)) (pre.append (.cons (.printS e) .nil))
      = .ok (res ++ pyFlatten v, Evaluator.costOf σ' env + 1) := by
  have happ := executeStatements_append (pre.length + (g + 2)) pre
    (.cons (.printS e) .nil) Evaluator.sigma0 Evaluator.env0 env res σ hpre
  have hlen : pre.length + (g + 2) - pre.length = g + 2 := by omega
  rw [hlen] at happ
  have hprint : Evaluator.executeStatements (g + 2) σ env (.cons (.printS e) .nil)
      = .ok (env, pyFlatten v) (Evaluator.incrementCost σ' env) := by
    rw [Evaluator.executeStatements_succ_cons, Evaluator.executeStatement_succ]
    simp only [Evaluator.execStmtF, Evaluator.interpGo_evalExpr]
    rw [he]
    simp only [Evaluator.executeStatements_succ_nil]
    cases v with
    | int n => rfl
    | bool b => rfl
    | float q => rfl
    | list l => simp [Evaluator.collectPrepend, pyFlatten]
  rw [hprint] at happ
  simp only at happ
  unfold Evaluator.execute
  rw [happ]
  simp only
  rw [costOf_incrementCost_shared σ' env env rfl]

/-- Witness for the amended C4 theorem: the program `print [1, 2]`. -/
theorem c4_print_results_flatten_lists_witness :
    Evaluator.execute (StmtList.nil.length + (5 + 2))
      (StmtList.nil.append (.cons (.printS (.listLiteral
        (.cons (.integerLiteral 1) (.cons (.integerLiteral 2) .nil)))) .nil))
      = .ok ([] ++ pyFlatten (.list [.int 1, .int 2]),
          Evaluator.costOf (Evaluator.incrementCost Evaluator.sigma0 Evaluator.env0)
            Evaluator.env0 + 1) :=
  c4_print_results_flatten_lists .nil
    (.listLiteral (.cons (.integerLiteral 1) (.cons (.integerLiteral 2) .nil)))
    5 Evaluator.env0 [] Evaluator.sigma0
    (Evaluator.incrementCost Evaluator.sigma0 Evaluator.env0)
    (.list [.int 1, .int 2]) rfl rfl

/-!  ### Claim C2 -/

/-- The family of programs refuting type-soundness: `let x integer = n`,
a function `f` whose body returns the outer `x`, and `print f()`. -/
def progC2 (n : Int) : StmtList :=
  .cons (.letS "x" (.base .integer) (.integerLiteral n))
    (.cons (.functionDeclaration "f" [] (.base .integer)
      (.cons (.returnS (.variable "x")) .nil))
      (.cons (.printS (.call "f" .nil)) .nil))

/-- **C2 counterexample.**  The claim says that on type-checked programs
`execute` never raises an `'Undefined variable'` error, in particular when
a function body reads a variable that was in scope at the function's
declaration.  The program `let x integer = 5; def f() returns integer:
return x; print f()` passes `type_check` (the checker keeps the enclosing
symbol table while checking the body), yet `execute` raises
`EvaluationError "Undefined variable: x"` (the call's child environment
contains only the parameters and the function table). -/
theorem c2_typechecked_program_raises_undefined_variable :
    TypeChecker.typeCheck 50 (progC2 5) = .ok ()
    ∧ Evaluator.execute 100 (progC2 5)
        = .error (.evaluationError "Undefined variable: x") := by
  refine ⟨by decide, by decide⟩

/-- **C2 (amended).**  A program accepted by `type_check` can still raise
an `'Undefined variable'` `EvaluationError`: the checker checks a function
body in the enclosing symbol table (plus parameters), but
`evaluate_function_call` executes the body in a fresh environment holding
only the parameters and the function table, so a body that reads a
variable that was in scope at the declaration fails at runtime.  The first
two conjuncts show the whole family `let x integer = n; def f() returns
integer: return x; print f()` type-checks and fails this way for every
`n`; the last conjunct is the general mechanism: calling any function whose
body returns a variable that is not among its (empty) parameters raises
exactly this error, even when the variable is bound in the caller's
environment. -/
theorem c2_undefined_variable_for_outer_reads :
    (∀ n : Int, TypeChecker.typeCheck 50 (progC2 n) = .ok ())
    ∧ (∀ n : Int, Evaluator.execute 100 (progC2 n)
        = .error (.evaluationError "Undefined variable: x"))
    ∧ (∀ (g : Nat) (σ : Evaluator.Store) (env : Evaluator.Environment)
        (fname vname : String) (rt : Ty) (w : Evaluator.RuntimeValue),
        dictGet env.functions fname
            = some ([], rt, .cons (.returnS (.variable vname)) .nil) →
        dictGet env.env vname = some w →
        Evaluator.evaluateExpression (g + 4) σ env (.call fname ExprList.nil)
          = .err (.evaluationError ("Undefined variable: " ++ vname))
              (Evaluator.incrementCost (Evaluator.incrementCost σ env)
                ⟨[], env.functions, env.costRef⟩)) := by
  refine ⟨?_, ?_, ?_⟩
  · intro n; rfl
  · intro n; rfl
  · intro g σ env fname vname rt w hfun hbound
    rw [Evaluator.evaluateExpression_succ]
    simp only [Evaluator.evalExprF]
    rw [hfun]
    rfl

/-- Witness for the amended C2 theorem's general conjunct: a concrete
caller environment binding `x` and declaring `f` with body `return x`. -/
theorem c2_undefined_variable_for_outer_reads_witness :
    Evaluator.evaluateExpression (0 + 4) Evaluator.sigma0
      (⟨[("x", .int 5)], [("f", ([], .base .integer,
        .cons (.returnS (.variable "x")) .nil))], 0⟩ : Evaluator.Environment)
      (.call "f" ExprList.nil)
      = .err (.evaluationError ("Undefined variable: " ++ "x"))
          (Evaluator.incrementCost
            (Evaluator.incrementCost Evaluator.sigma0
              (⟨[("x", .int 5)], [("f", ([], .base .integer,
                .cons (.returnS (.variable "x")) .nil))], 0⟩ : Evaluator.Environment))
            ⟨[], [("f", ([], .base .integer,
              .cons (.returnS (.variable "x")) .nil))], 0⟩) :=
  c2_undefined_variable_for_outer_reads.2.2 0 Evaluator.sigma0
    ⟨[("x", .int 5)], [("f", ([], .base .integer,
      .cons (.returnS (.variable "x")) .nil))], 0⟩
    "f" "x" (.base .integer) (.int 5) (by decide) (by decide)

end Metric
